import Mathlib

/-!
Verification of the verb-scraper core (src/services/verb_manager.py,
src/services/scraper.py, src/services/backup_scraper.py) against its
natural-language specification.

The persistence layer (SQLAlchemy models in src/models/verb.py) is embedded
as explicit list-backed tables: a row id is the index at which the row was
appended (rows are append-only, never deleted by the core), and every query
used by the code is a first-match lookup, mirroring Query.first().
-/

set_option maxRecDepth 4000

namespace VerbApp

/-- First index of a list element satisfying a predicate, mirroring the
first-match semantics of SQLAlchemy Query.first() over an append-only table. -/
def firstIdx (p : α → Bool) : List α → Option Nat
  | [] => none
  | a :: l => if p a then some 0 else (firstIdx p l).map (· + 1)

/-- Conjugation row (src/models/verb.py, class Conjugation): a value plus
foreign keys to one Verb, one Tense and one Person row.  The schema has no
unique constraint on the (verb_id, tense_id, person_id) triple. -/
structure Conj where
  value : String
  verb : Nat
  tense : Nat
  person : Nat
deriving DecidableEq, Repr

/-- The relational store (src/models/verb.py).  verbs holds infinitives
(unique), modes holds mode names (unique), tenses holds (name, mode id) with
no unique constraint, persons holds (name, sort_order) with no unique
constraint, conjs holds Conjugation rows. -/
structure DB where
  verbs : List String
  modes : List String
  tenses : List (String × Nat)
  persons : List (String × Nat)
  conjs : List Conj
deriving DecidableEq, Repr

def DB.empty : DB := ⟨[], [], [], [], []⟩

/-- The canonical person table, VerbManager.person_names
(src/services/verb_manager.py lines 35-42). -/
def personNames : List String :=
  ["eu", "tu", "ele/ela/você", "nós", "vós", "eles/elas/vocês"]

/-- Step 3 of VerbManager.get_or_create_verb_data (lines 94-107): look the
verb up by infinitive, create it if absent.  In the sequential embedding the
flush never conflicts, so the except branch is not taken; the concurrent
embedding below models the conflict branch. -/
def getOrCreateVerb (db : DB) (v : String) : Nat × DB :=
  match firstIdx (· = v) db.verbs with
  | some i => (i, db)
  | none => (db.verbs.length, { db with verbs := db.verbs ++ [v] })

/-- Step 4 (lines 109-114): get-or-create the Mode row by name. -/
def getOrCreateMode (db : DB) (m : String) : Nat × DB :=
  match firstIdx (· = m) db.modes with
  | some i => (i, db)
  | none => (db.modes.length, { db with modes := db.modes ++ [m] })

/-- Step 5 (lines 116-120): get-or-create the Tense row by (name, mode). -/
def getOrCreateTense (db : DB) (t : String) (mid : Nat) : Nat × DB :=
  match firstIdx (fun r => r.1 = t && r.2 = mid) db.tenses with
  | some i => (i, db)
  | none => (db.tenses.length, { db with tenses := db.tenses ++ [(t, mid)] })

/-- Person get-or-create inside the loop (lines 135-139): looked up by name
only; sort_order is set from the person index at creation. -/
def getOrCreatePerson (db : DB) (name : String) (sortOrder : Nat) : Nat × DB :=
  match firstIdx (fun r => r.1 = name) db.persons with
  | some i => (i, db)
  | none => (db.persons.length, { db with persons := db.persons ++ [(name, sortOrder)] })

/-- Existence check for a Conjugation keyed by (verb, tense, person)
(lines 141-143). -/
def conjExists (db : DB) (vid tid pid : Nat) : Bool :=
  db.conjs.any (fun c => c.verb = vid && c.tense = tid && c.person = pid)

/-- The Imperativo offset rule (lines 125-127): offset 1 exactly when the
form list has 5 elements and the mode is "Imperativo", else 0. -/
def impOffset (m : String) (fs : List String) : Nat :=
  if fs.length = 5 ∧ m = "Imperativo" then 1 else 0

/-- The persistence loop (lines 129-149): for the i-th form, person index is
i + offset; the loop breaks once the person index reaches 6; the person row
is get-or-created by name; the Conjugation is inserted only when no row with
the same (verb, tense, person) triple exists. -/
def insertLoop (vid tid off : Nat) (db : DB) : List String → Nat → DB
  | [], _ => db
  | f :: rest, i =>
    if i + off < personNames.length then
      let pr := getOrCreatePerson db (personNames.getD (i + off) "") (i + off)
      let db2 :=
        if conjExists pr.2 vid tid pr.1 then pr.2
        else { pr.2 with conjs := pr.2.conjs ++ [⟨f, vid, tid, pr.1⟩] }
      insertLoop vid tid off db2 rest (i + 1)
    else db

/-- Steps 3-6 of get_or_create_verb_data (lines 92-151), the database phase
run once the forms are resolved, in the sequential (no-fault) case. -/
def persistCore (db : DB) (v m t : String) (fs : List String) : DB :=
  let pv := getOrCreateVerb db v
  let pm := getOrCreateMode pv.2 m
  let pt := getOrCreateTense pm.2 t pm.1
  insertLoop pv.1 pt.1 (impOffset m fs) pt.2 fs 0

/-- Person rows created by the persistence loop on a store with no Person
rows yet (spec 4.3): position i of the form list yields the canonical
person at index i + offset, and indexes past the table are dropped. -/
def freshPersons : List String → Nat → Nat → List (String × Nat)
  | [], _, _ => []
  | _ :: rest, i, off =>
    if i + off < personNames.length then
      (personNames.getD (i + off) "", i + off) :: freshPersons rest (i + 1) off
    else []

/-- Conjugation rows created by the persistence loop on a store with no
Person rows and no matching Conjugation rows: position i of the form list
yields one row whose person id is the i-th freshly created Person row. -/
def freshConjs (vid tid : Nat) : List String → Nat → Nat → List Conj
  | [], _, _ => []
  | f :: rest, i, off =>
    if i + off < personNames.length then
      ⟨f, vid, tid, i⟩ :: freshConjs vid tid rest (i + 1) off
    else []

/-- An adapter result is treated as a failure by the caller exactly when it
is falsy in Python: None, or the empty list (lines 74 and 83). -/
def formsFail : Option (List String) → Bool
  | none => true
  | some l => l.isEmpty

/-- The failover chain (lines 69-81): call the primary adapter; if its
result is falsy, call the backup adapter with the identical arguments. -/
def resolveForms (primary backup : String → String → String → Option (List String))
    (v m t : String) : Option (List String) :=
  let f := primary v m t
  if formsFail f then backup v m t else f

/-- VerbManager.get_or_create_verb_data (lines 44-163), sequential embedding:
resolve forms with failover; if the resolved value is falsy return False
without touching the store; otherwise run the persistence phase and commit,
returning True. -/
def get_or_create_verb_data
    (primary backup : String → String → String → Option (List String))
    (db : DB) (v m t : String) : Bool × DB :=
  match resolveForms primary backup v m t with
  | none => (false, db)
  | some fs =>
    if fs.isEmpty then (false, db)
    else (true, persistCore db v m t fs)

/-! ### Primary source adapter (src/services/scraper.py) -/

/-- Abstract view of a fetched conjugacao.com.br page, as ConjugacaoScraper
reads it: the list of h3 headers in document order, each with its header text
and its parent container (none when the parent is absent or not a Tag).  A
container, asked for a tense, answers none when it has no h4 with that exact
string, some none when the h4 exists but has no following p sibling, and
some (some parts) when the p exists, parts being the text of each segment of
the paragraph split on br tags (before stripping). -/
structure PrimaryDoc where
  headers : List (String × Option (String → Option (Option (List String))))

/-- Python str.strip() on one extracted text run: drop leading and
trailing whitespace characters.  Implemented on the character list so that
it evaluates by reduction. -/
def pyStrip (s : String) : String :=
  ⟨((s.data.dropWhile Char.isWhitespace).reverse.dropWhile
    Char.isWhitespace).reverse⟩

/-- The header loop of ConjugacaoScraper.get_conjugations (lines 71-88):
walk the mode headers in order and keep the first paragraph found; headers
without a container, without the tense h4, or whose h4 lacks a following p
are passed over. -/
def findParagraph (tense : String) :
    List (String × Option (String → Option (Option (List String)))) →
    Option (List String)
  | [] => none
  | (_, none) :: rest => findParagraph tense rest
  | (_, some c) :: rest =>
    match c tense with
    | some (some parts) => some parts
    | _ => findParagraph tense rest

/-- ConjugacaoScraper.get_conjugations (src/services/scraper.py lines
30-111).  fetch abstracts the HTTP GET: none when requests raised (timeout,
connection error, or raise_for_status on a non-2xx reply), some doc when a
page was parsed.  The URL construction from the verb is outside the model.
Note line 107: the cleaned line list is returned as is, even when empty. -/
def ConjugacaoScraper.get_conjugations (fetch : Option PrimaryDoc)
    (mode tense : String) : Option (List String) :=
  match fetch with
  | none => none
  | some doc =>
    let modeHeaders := doc.headers.filter (fun h => h.1 = mode)
    if modeHeaders.isEmpty then none
    else
      match findParagraph tense modeHeaders with
      | none => none
      | some parts =>
        some ((parts.map pyStrip).filter (fun s => s ≠ ""))

/-! ### Backup source adapter (src/services/backup_scraper.py) -/

/-- Abstract view of a fetched cooljugator.com page: cell answers, for an
element id, none when no element has that id, some none when the element
exists but has no child with class meta-form, and some (some txt) when the
meta-form child exists with stripped text txt. -/
structure CoolDoc where
  cell : String → Option (Option String)

/-- The map_ids table of CooljugatorScraper (lines 28-37). -/
def mapIds : List ((String × String) × String) :=
  [(("Indicativo", "Presente"), "present"),
   (("Indicativo", "Pretérito Imperfeito"), "imperfect"),
   (("Indicativo", "Pretérito Perfeito"), "preterite"),
   (("Indicativo", "Pretérito Mais-que-perfeito"), "past_perfect"),
   (("Indicativo", "Futuro do Presente"), "future"),
   (("Indicativo", "Futuro do Pretérito"), "conditional"),
   (("Subjuntivo", "Presente"), "subj_present"),
   (("Subjuntivo", "Futuro"), "subj_future")]

/-- Dictionary lookup self.map_ids.get((mode, tense)) (line 54). -/
def lookupMapId (mode tense : String) : Option String :=
  (mapIds.find? (fun r => r.1.1 = mode && r.1.2 = tense)).map (·.2)

/-- The fixed pronoun list of CooljugatorScraper.get_conjugations
(line 86). -/
def pronouns : List String :=
  ["eu", "tu", "ele/ela/você", "nós", "vós", "eles/elas/vocês"]

/-- The cell loop of CooljugatorScraper.get_conjugations (lines 71-90),
embedded in isolation: for i in 1..6, look up the element with id idStem
followed by i; skip it if absent, skip it if it has no meta-form child,
otherwise emit the canonical pronoun for position i, a space, and the verb
text.  In the program this loop is dead code — see the definition of
CooljugatorScraper.get_conjugations below — so it is modelled as a
function of the parsed page it would receive. -/
def coolCollect (doc : CoolDoc) (idStem : String) : List String :=
  (List.range' 1 6).filterMap (fun i =>
    match doc.cell (idStem ++ toString i) with
    | some (some verbVal) => some (pronouns.getD (i - 1) "" ++ " " ++ verbVal)
    | _ => none)

/-- CooljugatorScraper.get_conjugations (lines 39-103) as it actually
runs.  Line 54 looks the (mode, tense) pair up in map_ids and line 57
returns None when it is unmapped, before any network access.  For a
mapped pair, line 60 evaluates self.headers while building the request
arguments; BaseScraper (src/services/base_scraper.py) assigns only
session.headers, never headers, and no other code assigns it, so an
AttributeError is raised inside the try block whose except clause at line
62 catches only requests.RequestException: the exception escapes the
adapter before the request is issued, whatever the network would have
answered.  Outcomes: .ok none is a plain return None, .error () an
exception escaping the adapter boundary; .ok (some l) is unreachable,
since the cell loop (coolCollect) and the empty-list check at lines 92-94
are never executed. -/
def CooljugatorScraper.get_conjugations (mode tense : String) :
    Except Unit (Option (List String)) :=
  match lookupMapId mode tense with
  | none => .ok none
  | some _ => .error ()

/-! ### Fault-injected persistence (rollback path, lines 160-163)

The sequential model above never takes the outer except branch.  To reason
about it, the same algorithm is restated with a fault oracle: fault = some s
makes the store raise at fault site s (0 = the flush after the Mode insert,
1 = the flush after the Tense step, 2 = the final commit, 3 + i = the flush
inside loop iteration i).  The except handler at lines 160-163 rolls the
whole transaction back and returns False, so a faulted run leaves the
committed store exactly as it was. -/

/-- Fault oracle check for one store operation. -/
def chkFault (site : Nat) (fault : Option Nat) : Except Unit Unit :=
  if fault = some site then .error () else .ok ()

/-- insertLoop with a fault check at the flush of each iteration. -/
def insertLoopE (fault : Option Nat) (vid tid off : Nat) (db : DB) :
    List String → Nat → Except Unit DB
  | [], _ => .ok db
  | f :: rest, i =>
    if i + off < personNames.length then
      match chkFault (3 + i) fault with
      | .error e => .error e
      | .ok _ =>
        let pr := getOrCreatePerson db (personNames.getD (i + off) "") (i + off)
        let db2 :=
          if conjExists pr.2 vid tid pr.1 then pr.2
          else { pr.2 with conjs := pr.2.conjs ++ [⟨f, vid, tid, pr.1⟩] }
        insertLoopE fault vid tid off db2 rest (i + 1)
    else .ok db

/-- persistCore with fault checks at each flush and at the commit. -/
def persistCoreE (fault : Option Nat) (db : DB) (v m t : String)
    (fs : List String) : Except Unit DB :=
  let pv := getOrCreateVerb db v
  match chkFault 0 fault with
  | .error e => .error e
  | .ok _ =>
    let pm := getOrCreateMode pv.2 m
    match chkFault 1 fault with
    | .error e => .error e
    | .ok _ =>
      let pt := getOrCreateTense pm.2 t pm.1
      match insertLoopE fault pv.1 pt.1 (impOffset m fs) pt.2 fs 0 with
      | .error e => .error e
      | .ok db4 =>
        match chkFault 2 fault with
        | .error e => .error e
        | .ok _ => .ok db4

/-- get_or_create_verb_data under the fault oracle: a raised store error is
caught by the handler at lines 160-163, which rolls back every pending write
(nothing was committed before line 151) and returns False. -/
def get_or_create_verb_dataE (fault : Option Nat)
    (primary backup : String → String → String → Option (List String))
    (db : DB) (v m t : String) : Bool × DB :=
  match resolveForms primary backup v m t with
  | none => (false, db)
  | some fs =>
    if fs.isEmpty then (false, db)
    else
      match persistCoreE fault db v m t fs with
      | .ok db1 => (true, db1)
      | .error _ => (false, db)

/-! ### Batch orchestrator (VerbManager.process_batch, lines 165-225) -/

/-- BatchJob row (src/models/verb.py, class BatchJob); completed_at is an
abstract timestamp. -/
structure BatchJobRec where
  id : String
  status : String
  total_tasks : Nat
  success_count : Nat
  failed_count : Nat
  completed_at : Option Nat
deriving DecidableEq, Repr

/-- One batch task dictionary with keys verb, mode, tense. -/
structure ScrapeTask where
  verb : String
  mode : String
  tense : String
deriving DecidableEq, Repr

/-- db.session.get(BatchJob, job_id): primary-key lookup, first row whose
id matches. -/
def findJob : List BatchJobRec → String → Option BatchJobRec
  | [], _ => none
  | j :: rest, jid => if j.id = jid then some j else findJob rest jid

/-- Mutate-and-commit of the job row when present; a lookup miss leaves the
table untouched (the if job: guard at lines 185 and 212). -/
def updateJob (jobs : List BatchJobRec) (jid : String)
    (f : BatchJobRec → BatchJobRec) : List BatchJobRec :=
  jobs.map (fun j => if j.id = jid then f j else j)

/-- VerbManager.process_batch (lines 165-225).  persistOutcome abstracts
threaded_task: the jitter sleep and the thread pool are scheduling only, and
executor.map returns one boolean per task in task order, so the pool is
modelled by mapping persistOutcome over the tasks.  now abstracts
datetime.now(UTC) at completion. -/
def process_batch (persistOutcome : ScrapeTask → Bool) (now : Nat)
    (jobs : List BatchJobRec) (tasks : List ScrapeTask)
    (jobId : Option String) : (Nat × Nat × Nat) × List BatchJobRec :=
  let total := tasks.length
  let jobs1 :=
    match jobId with
    | some jid => updateJob jobs jid (fun j => { j with status := "processing" })
    | none => jobs
  let outcomes := tasks.map persistOutcome
  let success := outcomes.count true
  let failed := outcomes.count false
  let jobs2 :=
    match jobId with
    | some jid =>
      updateJob jobs1 jid (fun j =>
        { j with status := "completed", success_count := success,
                 failed_count := failed, completed_at := some now })
    | none => jobs1
  ((total, success, failed), jobs2)

/-! ### Two-thread concurrency model

process_batch runs get_or_create_verb_data on a pool of worker threads, each
inside its own application context, hence its own SQLAlchemy session.  The
model below runs two such tasks step by step under an arbitrary schedule.

Shared state is the committed store plus a global id sequence; each thread
owns a session with flushed-but-uncommitted pending rows.  Queries see the
committed rows plus the querying session's own pending rows, never the other
session's.  The tables verbs.infinitive and modes.name carry unique
constraints (src/models/verb.py); tenses, persons and conjugations carry
none.  A flush that inserts a key already flushed by the other uncommitted
session blocks until that session commits (and then raises); a flush that
inserts a key already committed raises at once.  For the verb insert the
code catches that error, rolls back and re-reads (lines 101-107); for the
mode insert the error propagates to the outer handler (lines 160-163),
which rolls back the whole session and returns False.  Commit publishes the
session's pending rows atomically (line 151).

Each atomic step below touches shared state at most once, so finer
interleavings are equivalent: the pure work between two session operations
commutes with the other thread's steps. -/

/-- Store with explicit row ids: committed tables and session-pending
tables share this shape.  tenses map id to (name, mode id); persons map id
to (name, sort_order). -/
structure Store where
  verbs : List (Nat × String)
  modes : List (Nat × String)
  tenses : List (Nat × (String × Nat))
  persons : List (Nat × (String × Nat))
  conjs : List Conj
deriving DecidableEq, Repr

def Store.empty : Store := ⟨[], [], [], [], []⟩

/-- First row id whose payload matches, over committed rows then own
pending rows (Query.first() inside an autoflushing session). -/
def lookupRow (rows : List (Nat × α)) (p : α → Bool) : Option Nat :=
  (rows.find? (fun r => p r.2)).map (·.1)

/-- A scrape task as one thread sees it: the scraping phase touches no
shared state, so the resolved form list is part of the task. -/
structure TaskSpec where
  verb : String
  mode : String
  tense : String
  forms : List String
deriving DecidableEq, Repr

/-- Program counter of one worker thread inside the database phase of
get_or_create_verb_data, with the row ids resolved so far. -/
inductive TPhase where
  | qVerb
  | insVerb
  | qMode (vid : Nat)
  | insMode (vid : Nat)
  | tenseStep (vid mid : Nat)
  | formStep (vid tid : Nat) (rest : List String) (i : Nat)
  | commitStep
  | finished (ok : Bool)
deriving DecidableEq, Repr

/-- One worker thread: program counter plus its session's pending rows. -/
structure ThreadSt where
  phase : TPhase
  pending : Store
deriving DecidableEq, Repr

/-- Result of giving one thread its next step. -/
inductive StepRes where
  | blocked
  | next (phase : TPhase) (pending : Store) (committed : Store) (nid : Nat)
deriving DecidableEq, Repr

/-- Append the session's pending rows to the committed store
(db.session.commit(), line 151). -/
def commitPending (c own : Store) : Store :=
  ⟨c.verbs ++ own.verbs, c.modes ++ own.modes, c.tenses ++ own.tenses,
   c.persons ++ own.persons, c.conjs ++ own.conjs⟩

/-- One atomic step of a worker running the database phase of
get_or_create_verb_data for task s, given the committed store, the id
sequence, its own pending rows and the other session's pending rows. -/
def threadStep (s : TaskSpec) (c : Store) (nid : Nat) (own other : Store) :
    TPhase → StepRes
  | .qVerb =>
    match lookupRow (c.verbs ++ own.verbs) (· = s.verb) with
    | some vid => .next (.qMode vid) own c nid
    | none => .next .insVerb own c nid
  | .insVerb =>
    if other.verbs.any (fun r => r.2 = s.verb) then .blocked
    else
      match lookupRow c.verbs (· = s.verb) with
      | some vid => .next (.qMode vid) Store.empty c nid
      | none =>
        .next (.qMode nid) { own with verbs := own.verbs ++ [(nid, s.verb)] }
          c (nid + 1)
  | .qMode vid =>
    match lookupRow (c.modes ++ own.modes) (· = s.mode) with
    | some mid => .next (.tenseStep vid mid) own c nid
    | none => .next (.insMode vid) own c nid
  | .insMode vid =>
    if other.modes.any (fun r => r.2 = s.mode) then .blocked
    else
      match lookupRow c.modes (· = s.mode) with
      | some _ => .next (.finished false) Store.empty c nid
      | none =>
        .next (.tenseStep vid nid) { own with modes := own.modes ++ [(nid, s.mode)] }
          c (nid + 1)
  | .tenseStep vid mid =>
    match lookupRow (c.tenses ++ own.tenses) (fun r => r.1 = s.tense && r.2 = mid) with
    | some tid => .next (.formStep vid tid s.forms 0) own c nid
    | none =>
      .next (.formStep vid nid s.forms 0)
        { own with tenses := own.tenses ++ [(nid, (s.tense, mid))] } c (nid + 1)
  | .formStep vid tid rest i =>
    match rest with
    | [] => .next .commitStep own c nid
    | f :: rest2 =>
      let off := impOffset s.mode s.forms
      if i + off < personNames.length then
        let pname := personNames.getD (i + off) ""
        let (pid, own1, nid1) :=
          match lookupRow (c.persons ++ own.persons) (fun r => r.1 = pname) with
          | some pid => (pid, own, nid)
          | none =>
            (nid, { own with persons := own.persons ++ [(nid, (pname, i + off))] },
             nid + 1)
        let own2 :=
          if (c.conjs ++ own1.conjs).any
              (fun cj => cj.verb = vid && cj.tense = tid && cj.person = pid) then own1
          else { own1 with conjs := own1.conjs ++ [⟨f, vid, tid, pid⟩] }
        .next (.formStep vid tid rest2 (i + 1)) own2 c nid1
      else .next .commitStep own c nid
  | .commitStep => .next (.finished true) Store.empty (commitPending c own) nid
  | .finished _ => .blocked

/-- Whole-system state: committed store, id sequence, two workers. -/
structure Machine where
  committed : Store
  nextId : Nat
  t1 : ThreadSt
  t2 : ThreadSt
deriving DecidableEq, Repr

/-- Scheduler step: run one step of the chosen thread; a blocked or
finished thread leaves the state unchanged. -/
def machStep (s1 s2 : TaskSpec) (g : Machine) (choose1 : Bool) : Machine :=
  if choose1 then
    match threadStep s1 g.committed g.nextId g.t1.pending g.t2.pending g.t1.phase with
    | .blocked => g
    | .next ph pend comm nid => ⟨comm, nid, ⟨ph, pend⟩, g.t2⟩
  else
    match threadStep s2 g.committed g.nextId g.t2.pending g.t1.pending g.t2.phase with
    | .blocked => g
    | .next ph pend comm nid => ⟨comm, nid, g.t1, ⟨ph, pend⟩⟩

/-- Run a schedule: each entry names the thread that takes the next step. -/
def runSched (s1 s2 : TaskSpec) (g : Machine) : List Bool → Machine
  | [] => g
  | b :: r => runSched s1 s2 (machStep s1 s2 g b) r

/-- Initial machine over a committed store: both workers about to query the
verb, sessions empty. -/
def initMachine (c : Store) (nid : Nat) : Machine :=
  ⟨c, nid, ⟨.qVerb, Store.empty⟩, ⟨.qVerb, Store.empty⟩⟩

/-- Thread finished with the given outcome. -/
def ThreadSt.doneWith (t : ThreadSt) (b : Bool) : Prop := t.phase = .finished b

/-- How many committed verb rows hold this infinitive. -/
def Store.verbCount (c : Store) (v : String) : Nat :=
  (c.verbs.filter (fun r => r.2 = v)).length

/-- Boolean check for two committed Conjugation rows on the same
(verb, tense, person) triple. -/
def Store.hasDupConj (c : Store) : Bool :=
  c.conjs.any (fun x =>
    1 < (c.conjs.filter
      (fun y => y.verb = x.verb && y.tense = x.tense && y.person = x.person)).length)

/-! ### Reachable-state enumeration for the two-thread model

For a concrete pair of tasks and a concrete initial store the reachable
state space of the machine is finite.  It is given below as an explicit
list together with successor tables; tableOK checks, by evaluation, that
the tables are correct and the list is closed under machStep, and the
lemmas after it turn that check into a statement about every schedule. -/

/-- Placeholder machine for list indexing. -/
def dM : Machine := initMachine Store.empty 0

/-- Evaluable certificate: sT and sF give, for each state in V, the index
of its successor when thread 1 resp. thread 2 takes the next step, so V is
closed under machStep. -/
def tableOK (s1 s2 : TaskSpec) (V : List Machine) (sT sF : List Nat) : Bool :=
  decide (V.length = sT.length) && decide (V.length = sF.length) &&
  (List.range V.length).all (fun i =>
    decide (sT.getD i 0 < V.length) && decide (sF.getD i 0 < V.length) &&
    decide (machStep s1 s2 (V.getD i dM) true = V.getD (sT.getD i 0) dM) &&
    decide (machStep s1 s2 (V.getD i dM) false = V.getD (sF.getD i 0) dM))

/-- The representative contended scenario of the claims: two concurrent
tasks for the same verb, mode and tense, on a store that does not yet hold
the verb. -/
def sameTask : TaskSpec := ⟨"falar", "Indicativo", "Presente", ["eu falo", "tu falas"]⟩

/-- All machine states reachable from initMachine Store.empty 0 when both
threads run sameTask, computed by exhaustive exploration and certified by
sameVerb_tableOK below. -/
def sameVerbStates : List Machine :=
[{ committed := { verbs := [], modes := [], tenses := [], persons := [], conjs := [] },
   nextId := 0,
   t1 := { phase := VerbApp.TPhase.qVerb,
           pending := { verbs := [], modes := [], tenses := [], persons := [], conjs := [] } },
   t2 := { phase := VerbApp.TPhase.qVerb,
           pending := { verbs := [], modes := [], tenses := [], persons := [], conjs := [] } } },
 { committed := { verbs := [], modes := [], tenses := [], persons := [], conjs := [] },
   nextId := 0,
   t1 := { phase := VerbApp.TPhase.insVerb,
           pending := { verbs := [], modes := [], tenses := [], persons := [], conjs := [] } },
   t2 := { phase := VerbApp.TPhase.qVerb,
           pending := { verbs := [], modes := [], tenses := [], persons := [], conjs := [] } } },
 { committed := { verbs := [], modes := [], tenses := [], persons := [], conjs := [] },
   nextId := 0,
   t1 := { phase := VerbApp.TPhase.qVerb,
           pending := { verbs := [], modes := [], tenses := [], persons := [], conjs := [] } },
   t2 := { phase := VerbApp.TPhase.insVerb,
           pending := { verbs := [], modes := [], tenses := [], persons := [], conjs := [] } } },
 { committed := { verbs := [], modes := [], tenses := [], persons := [], conjs := [] },
   nextId := 1,
   t1 := { phase := VerbApp.TPhase.qMode 0,
           pending := { verbs := [(0, "falar")], modes := [], tenses := [], persons := [], conjs := [] } },
   t2 := { phase := VerbApp.TPhase.qVerb,
           pending := { verbs := [], modes := [], tenses := [], persons := [], conjs := [] } } },
 { committed := { verbs := [], modes := [], tenses := [], persons := [], conjs := [] },
   nextId := 0,
   t1 := { phase := VerbApp.TPhase.insVerb,
           pending := { verbs := [], modes := [], tenses := [], persons := [], conjs := [] } },
   t2 := { phase := VerbApp.TPhase.insVerb,
           pending := { verbs := [], modes := [], tenses := [], persons := [], conjs := [] } } },
 { committed := { verbs := [], modes := [], tenses := [], persons := [], conjs := [] },
   nextId := 1,
   t1 := { phase := VerbApp.TPhase.qVerb,
           pending := { verbs := [], modes := [], tenses := [], persons := [], conjs := [] } },
   t2 := { phase := VerbApp.TPhase.qMode 0,
           pending := { verbs := [(0, "falar")], modes := [], tenses := [], persons := [], conjs := [] } } },
 { committed := { verbs := [], modes := [], tenses := [], persons := [], conjs := [] },
   nextId := 1,
   t1 := { phase := VerbApp.TPhase.insMode 0,
           pending := { verbs := [(0, "falar")], modes := [], tenses := [], persons := [], conjs := [] } },
   t2 := { phase := VerbApp.TPhase.qVerb,
           pending := { verbs := [], modes := [], tenses := [], persons := [], conjs := [] } } },
 { committed := { verbs := [], modes := [], tenses := [], persons := [], conjs := [] },
   nextId := 1,
   t1 := { phase := VerbApp.TPhase.qMode 0,
           pending := { verbs := [(0, "falar")], modes := [], tenses := [], persons := [], conjs := [] } },
   t2 := { phase := VerbApp.TPhase.insVerb,
           pending := { verbs := [], modes := [], tenses := [], persons := [], conjs := [] } } },
 { committed := { verbs := [], modes := [], tenses := [], persons := [], conjs := [] },
   nextId := 1,
   t1 := { phase := VerbApp.TPhase.insVerb,
           pending := { verbs := [], modes := [], tenses := [], persons := [], conjs := [] } },
   t2 := { phase := VerbApp.TPhase.qMode 0,
           pending := { verbs := [(0, "falar")], modes := [], tenses := [], persons := [], conjs := [] } } },
 { committed := { verbs := [], modes := [], tenses := [], persons := [], conjs := [] },
   nextId := 1,
   t1 := { phase := VerbApp.TPhase.qVerb,
           pending := { verbs := [], modes := [], tenses := [], persons := [], conjs := [] } },
   t2 := { phase := VerbApp.TPhase.insMode 0,
           pending := { verbs := [(0, "falar")], modes := [], tenses := [], persons := [], conjs := [] } } },
 { committed := { verbs := [], modes := [], tenses := [], persons := [], conjs := [] },
   nextId := 2,
   t1 := { phase := VerbApp.TPhase.tenseStep 0 1,
           pending := { verbs := [(0, "falar")],
                        modes := [(1, "Indicativo")],
                        tenses := [],
                        persons := [],
                        conjs := [] } },
   t2 := { phase := VerbApp.TPhase.qVerb,
           pending := { verbs := [], modes := [], tenses := [], persons := [], conjs := [] } } },
 { committed := { verbs := [], modes := [], tenses := [], persons := [], conjs := [] },
   nextId := 1,
   t1 := { phase := VerbApp.TPhase.insMode 0,
           pending := { verbs := [(0, "falar")], modes := [], tenses := [], persons := [], conjs := [] } },
   t2 := { phase := VerbApp.TPhase.insVerb,
           pending := { verbs := [], modes := [], tenses := [], persons := [], conjs := [] } } },
 { committed := { verbs := [], modes := [], tenses := [], persons := [], conjs := [] },
   nextId := 1,
   t1 := { phase := VerbApp.TPhase.insVerb,
           pending := { verbs := [], modes := [], tenses := [], persons := [], conjs := [] } },
   t2 := { phase := VerbApp.TPhase.insMode 0,
           pending := { verbs := [(0, "falar")], modes := [], tenses := [], persons := [], conjs := [] } } },
 { committed := { verbs := [], modes := [], tenses := [], persons := [], conjs := [] },
   nextId := 2,
   t1 := { phase := VerbApp.TPhase.qVerb,
           pending := { verbs := [], modes := [], tenses := [], persons := [], conjs := [] } },
   t2 := { phase := VerbApp.TPhase.tenseStep 0 1,
           pending := { verbs := [(0, "falar")],
                        modes := [(1, "Indicativo")],
                        tenses := [],
                        persons := [],
                        conjs := [] } } },
 { committed := { verbs := [], modes := [], tenses := [], persons := [], conjs := [] },
   nextId := 3,
   t1 := { phase := VerbApp.TPhase.formStep 0 2 ["eu falo", "tu falas"] 0,
           pending := { verbs := [(0, "falar")],
                        modes := [(1, "Indicativo")],
                        tenses := [(2, "Presente", 1)],
                        persons := [],
                        conjs := [] } },
   t2 := { phase := VerbApp.TPhase.qVerb,
           pending := { verbs := [], modes := [], tenses := [], persons := [], conjs := [] } } },
 { committed := { verbs := [], modes := [], tenses := [], persons := [], conjs := [] },
   nextId := 2,
   t1 := { phase := VerbApp.TPhase.tenseStep 0 1,
           pending := { verbs := [(0, "falar")],
                        modes := [(1, "Indicativo")],
                        tenses := [],
                        persons := [],
                        conjs := [] } },
   t2 := { phase := VerbApp.TPhase.insVerb,
           pending := { verbs := [], modes := [], tenses := [], persons := [], conjs := [] } } },
 { committed := { verbs := [], modes := [], tenses := [], persons := [], conjs := [] },
   nextId := 2,
   t1 := { phase := VerbApp.TPhase.insVerb,
           pending := { verbs := [], modes := [], tenses := [], persons := [], conjs := [] } },
   t2 := { phase := VerbApp.TPhase.tenseStep 0 1,
           pending := { verbs := [(0, "falar")],
                        modes := [(1, "Indicativo")],
                        tenses := [],
                        persons := [],
                        conjs := [] } } },
 { committed := { verbs := [], modes := [], tenses := [], persons := [], conjs := [] },
   nextId := 3,
   t1 := { phase := VerbApp.TPhase.qVerb,
           pending := { verbs := [], modes := [], tenses := [], persons := [], conjs := [] } },
   t2 := { phase := VerbApp.TPhase.formStep 0 2 ["eu falo", "tu falas"] 0,
           pending := { verbs := [(0, "falar")],
                        modes := [(1, "Indicativo")],
                        tenses := [(2, "Presente", 1)],
                        persons := [],
                        conjs := [] } } },
 { committed := { verbs := [], modes := [], tenses := [], persons := [], conjs := [] },
   nextId := 4,
   t1 := { phase := VerbApp.TPhase.formStep 0 2 ["tu falas"] 1,
           pending := { verbs := [(0, "falar")],
                        modes := [(1, "Indicativo")],
                        tenses := [(2, "Presente", 1)],
                        persons := [(3, "eu", 0)],
                        conjs := [{ value := "eu falo", verb := 0, tense := 2, person := 3 }] } },
   t2 := { phase := VerbApp.TPhase.qVerb,
           pending := { verbs := [], modes := [], tenses := [], persons := [], conjs := [] } } },
 { committed := { verbs := [], modes := [], tenses := [], persons := [], conjs := [] },
   nextId := 3,
   t1 := { phase := VerbApp.TPhase.formStep 0 2 ["eu falo", "tu falas"] 0,
           pending := { verbs := [(0, "falar")],
                        modes := [(1, "Indicativo")],
                        tenses := [(2, "Presente", 1)],
                        persons := [],
                        conjs := [] } },
   t2 := { phase := VerbApp.TPhase.insVerb,
           pending := { verbs := [], modes := [], tenses := [], persons := [], conjs := [] } } },
 { committed := { verbs := [], modes := [], tenses := [], persons := [], conjs := [] },
   nextId := 3,
   t1 := { phase := VerbApp.TPhase.insVerb,
           pending := { verbs := [], modes := [], tenses := [], persons := [], conjs := [] } },
   t2 := { phase := VerbApp.TPhase.formStep 0 2 ["eu falo", "tu falas"] 0,
           pending := { verbs := [(0, "falar")],
                        modes := [(1, "Indicativo")],
                        tenses := [(2, "Presente", 1)],
                        persons := [],
                        conjs := [] } } },
 { committed := { verbs := [], modes := [], tenses := [], persons := [], conjs := [] },
   nextId := 4,
   t1 := { phase := VerbApp.TPhase.qVerb,
           pending := { verbs := [], modes := [], tenses := [], persons := [], conjs := [] } },
   t2 := { phase := VerbApp.TPhase.formStep 0 2 ["tu falas"] 1,
           pending := { verbs := [(0, "falar")],
                        modes := [(1, "Indicativo")],
                        tenses := [(2, "Presente", 1)],
                        persons := [(3, "eu", 0)],
                        conjs := [{ value := "eu falo", verb := 0, tense := 2, person := 3 }] } } },
 { committed := { verbs := [], modes := [], tenses := [], persons := [], conjs := [] },
   nextId := 5,
   t1 := { phase := VerbApp.TPhase.formStep 0 2 [] 2,
           pending := { verbs := [(0, "falar")],
                        modes := [(1, "Indicativo")],
                        tenses := [(2, "Presente", 1)],
                        persons := [(3, "eu", 0), (4, "tu", 1)],
                        conjs := [{ value := "eu falo", verb := 0, tense := 2, person := 3 },
                                  { value := "tu falas", verb := 0, tense := 2, person := 4 }] } },
   t2 := { phase := VerbApp.TPhase.qVerb,
           pending := { verbs := [], modes := [], tenses := [], persons := [], conjs := [] } } },
 { committed := { verbs := [], modes := [], tenses := [], persons := [], conjs := [] },
   nextId := 4,
   t1 := { phase := VerbApp.TPhase.formStep 0 2 ["tu falas"] 1,
           pending := { verbs := [(0, "falar")],
                        modes := [(1, "Indicativo")],
                        tenses := [(2, "Presente", 1)],
                        persons := [(3, "eu", 0)],
                        conjs := [{ value := "eu falo", verb := 0, tense := 2, person := 3 }] } },
   t2 := { phase := VerbApp.TPhase.insVerb,
           pending := { verbs := [], modes := [], tenses := [], persons := [], conjs := [] } } },
 { committed := { verbs := [], modes := [], tenses := [], persons := [], conjs := [] },
   nextId := 4,
   t1 := { phase := VerbApp.TPhase.insVerb,
           pending := { verbs := [], modes := [], tenses := [], persons := [], conjs := [] } },
   t2 := { phase := VerbApp.TPhase.formStep 0 2 ["tu falas"] 1,
           pending := { verbs := [(0, "falar")],
                        modes := [(1, "Indicativo")],
                        tenses := [(2, "Presente", 1)],
                        persons := [(3, "eu", 0)],
                        conjs := [{ value := "eu falo", verb := 0, tense := 2, person := 3 }] } } },
 { committed := { verbs := [], modes := [], tenses := [], persons := [], conjs := [] },
   nextId := 5,
   t1 := { phase := VerbApp.TPhase.qVerb,
           pending := { verbs := [], modes := [], tenses := [], persons := [], conjs := [] } },
   t2 := { phase := VerbApp.TPhase.formStep 0 2 [] 2,
           pending := { verbs := [(0, "falar")],
                        modes := [(1, "Indicativo")],
                        tenses := [(2, "Presente", 1)],
                        persons := [(3, "eu", 0), (4, "tu", 1)],
                        conjs := [{ value := "eu falo", verb := 0, tense := 2, person := 3 },
                                  { value := "tu falas", verb := 0, tense := 2, person := 4 }] } } },
 { committed := { verbs := [], modes := [], tenses := [], persons := [], conjs := [] },
   nextId := 5,
   t1 := { phase := VerbApp.TPhase.commitStep,
           pending := { verbs := [(0, "falar")],
                        modes := [(1, "Indicativo")],
                        tenses := [(2, "Presente", 1)],
                        persons := [(3, "eu", 0), (4, "tu", 1)],
                        conjs := [{ value := "eu falo", verb := 0, tense := 2, person := 3 },
                                  { value := "tu falas", verb := 0, tense := 2, person := 4 }] } },
   t2 := { phase := VerbApp.TPhase.qVerb,
           pending := { verbs := [], modes := [], tenses := [], persons := [], conjs := [] } } },
 { committed := { verbs := [], modes := [], tenses := [], persons := [], conjs := [] },
   nextId := 5,
   t1 := { phase := VerbApp.TPhase.formStep 0 2 [] 2,
           pending := { verbs := [(0, "falar")],
                        modes := [(1, "Indicativo")],
                        tenses := [(2, "Presente", 1)],
                        persons := [(3, "eu", 0), (4, "tu", 1)],
                        conjs := [{ value := "eu falo", verb := 0, tense := 2, person := 3 },
                                  { value := "tu falas", verb := 0, tense := 2, person := 4 }] } },
   t2 := { phase := VerbApp.TPhase.insVerb,
           pending := { verbs := [], modes := [], tenses := [], persons := [], conjs := [] } } },
 { committed := { verbs := [], modes := [], tenses := [], persons := [], conjs := [] },
   nextId := 5,
   t1 := { phase := VerbApp.TPhase.insVerb,
           pending := { verbs := [], modes := [], tenses := [], persons := [], conjs := [] } },
   t2 := { phase := VerbApp.TPhase.formStep 0 2 [] 2,
           pending := { verbs := [(0, "falar")],
                        modes := [(1, "Indicativo")],
                        tenses := [(2, "Presente", 1)],
                        persons := [(3, "eu", 0), (4, "tu", 1)],
                        conjs := [{ value := "eu falo", verb := 0, tense := 2, person := 3 },
                                  { value := "tu falas", verb := 0, tense := 2, person := 4 }] } } },
 { committed := { verbs := [], modes := [], tenses := [], persons := [], conjs := [] },
   nextId := 5,
   t1 := { phase := VerbApp.TPhase.qVerb,
           pending := { verbs := [], modes := [], tenses := [], persons := [], conjs := [] } },
   t2 := { phase := VerbApp.TPhase.commitStep,
           pending := { verbs := [(0, "falar")],
                        modes := [(1, "Indicativo")],
                        tenses := [(2, "Presente", 1)],
                        persons := [(3, "eu", 0), (4, "tu", 1)],
                        conjs := [{ value := "eu falo", verb := 0, tense := 2, person := 3 },
                                  { value := "tu falas", verb := 0, tense := 2, person := 4 }] } } },
 { committed := { verbs := [(0, "falar")],
                  modes := [(1, "Indicativo")],
                  tenses := [(2, "Presente", 1)],
                  persons := [(3, "eu", 0), (4, "tu", 1)],
                  conjs := [{ value := "eu falo", verb := 0, tense := 2, person := 3 },
                            { value := "tu falas", verb := 0, tense := 2, person := 4 }] },
   nextId := 5,
   t1 := { phase := VerbApp.TPhase.finished true,
           pending := { verbs := [], modes := [], tenses := [], persons := [], conjs := [] } },
   t2 := { phase := VerbApp.TPhase.qVerb,
           pending := { verbs := [], modes := [], tenses := [], persons := [], conjs := [] } } },
 { committed := { verbs := [], modes := [], tenses := [], persons := [], conjs := [] },
   nextId := 5,
   t1 := { phase := VerbApp.TPhase.commitStep,
           pending := { verbs := [(0, "falar")],
                        modes := [(1, "Indicativo")],
                        tenses := [(2, "Presente", 1)],
                        persons := [(3, "eu", 0), (4, "tu", 1)],
                        conjs := [{ value := "eu falo", verb := 0, tense := 2, person := 3 },
                                  { value := "tu falas", verb := 0, tense := 2, person := 4 }] } },
   t2 := { phase := VerbApp.TPhase.insVerb,
           pending := { verbs := [], modes := [], tenses := [], persons := [], conjs := [] } } },
 { committed := { verbs := [], modes := [], tenses := [], persons := [], conjs := [] },
   nextId := 5,
   t1 := { phase := VerbApp.TPhase.insVerb,
           pending := { verbs := [], modes := [], tenses := [], persons := [], conjs := [] } },
   t2 := { phase := VerbApp.TPhase.commitStep,
           pending := { verbs := [(0, "falar")],
                        modes := [(1, "Indicativo")],
                        tenses := [(2, "Presente", 1)],
                        persons := [(3, "eu", 0), (4, "tu", 1)],
                        conjs := [{ value := "eu falo", verb := 0, tense := 2, person := 3 },
                                  { value := "tu falas", verb := 0, tense := 2, person := 4 }] } } },
 { committed := { verbs := [(0, "falar")],
                  modes := [(1, "Indicativo")],
                  tenses := [(2, "Presente", 1)],
                  persons := [(3, "eu", 0), (4, "tu", 1)],
                  conjs := [{ value := "eu falo", verb := 0, tense := 2, person := 3 },
                            { value := "tu falas", verb := 0, tense := 2, person := 4 }] },
   nextId := 5,
   t1 := { phase := VerbApp.TPhase.qVerb,
           pending := { verbs := [], modes := [], tenses := [], persons := [], conjs := [] } },
   t2 := { phase := VerbApp.TPhase.finished true,
           pending := { verbs := [], modes := [], tenses := [], persons := [], conjs := [] } } },
 { committed := { verbs := [(0, "falar")],
                  modes := [(1, "Indicativo")],
                  tenses := [(2, "Presente", 1)],
                  persons := [(3, "eu", 0), (4, "tu", 1)],
                  conjs := [{ value := "eu falo", verb := 0, tense := 2, person := 3 },
                            { value := "tu falas", verb := 0, tense := 2, person := 4 }] },
   nextId := 5,
   t1 := { phase := VerbApp.TPhase.finished true,
           pending := { verbs := [], modes := [], tenses := [], persons := [], conjs := [] } },
   t2 := { phase := VerbApp.TPhase.qMode 0,
           pending := { verbs := [], modes := [], tenses := [], persons := [], conjs := [] } } },
 { committed := { verbs := [(0, "falar")],
                  modes := [(1, "Indicativo")],
                  tenses := [(2, "Presente", 1)],
                  persons := [(3, "eu", 0), (4, "tu", 1)],
                  conjs := [{ value := "eu falo", verb := 0, tense := 2, person := 3 },
                            { value := "tu falas", verb := 0, tense := 2, person := 4 }] },
   nextId := 5,
   t1 := { phase := VerbApp.TPhase.finished true,
           pending := { verbs := [], modes := [], tenses := [], persons := [], conjs := [] } },
   t2 := { phase := VerbApp.TPhase.insVerb,
           pending := { verbs := [], modes := [], tenses := [], persons := [], conjs := [] } } },
 { committed := { verbs := [(0, "falar")],
                  modes := [(1, "Indicativo")],
                  tenses := [(2, "Presente", 1)],
                  persons := [(3, "eu", 0), (4, "tu", 1)],
                  conjs := [{ value := "eu falo", verb := 0, tense := 2, person := 3 },
                            { value := "tu falas", verb := 0, tense := 2, person := 4 }] },
   nextId := 5,
   t1 := { phase := VerbApp.TPhase.insVerb,
           pending := { verbs := [], modes := [], tenses := [], persons := [], conjs := [] } },
   t2 := { phase := VerbApp.TPhase.finished true,
           pending := { verbs := [], modes := [], tenses := [], persons := [], conjs := [] } } },
 { committed := { verbs := [(0, "falar")],
                  modes := [(1, "Indicativo")],
                  tenses := [(2, "Presente", 1)],
                  persons := [(3, "eu", 0), (4, "tu", 1)],
                  conjs := [{ value := "eu falo", verb := 0, tense := 2, person := 3 },
                            { value := "tu falas", verb := 0, tense := 2, person := 4 }] },
   nextId := 5,
   t1 := { phase := VerbApp.TPhase.qMode 0,
           pending := { verbs := [], modes := [], tenses := [], persons := [], conjs := [] } },
   t2 := { phase := VerbApp.TPhase.finished true,
           pending := { verbs := [], modes := [], tenses := [], persons := [], conjs := [] } } },
 { committed := { verbs := [(0, "falar")],
                  modes := [(1, "Indicativo")],
                  tenses := [(2, "Presente", 1)],
                  persons := [(3, "eu", 0), (4, "tu", 1)],
                  conjs := [{ value := "eu falo", verb := 0, tense := 2, person := 3 },
                            { value := "tu falas", verb := 0, tense := 2, person := 4 }] },
   nextId := 5,
   t1 := { phase := VerbApp.TPhase.finished true,
           pending := { verbs := [], modes := [], tenses := [], persons := [], conjs := [] } },
   t2 := { phase := VerbApp.TPhase.tenseStep 0 1,
           pending := { verbs := [], modes := [], tenses := [], persons := [], conjs := [] } } },
 { committed := { verbs := [(0, "falar")],
                  modes := [(1, "Indicativo")],
                  tenses := [(2, "Presente", 1)],
                  persons := [(3, "eu", 0), (4, "tu", 1)],
                  conjs := [{ value := "eu falo", verb := 0, tense := 2, person := 3 },
                            { value := "tu falas", verb := 0, tense := 2, person := 4 }] },
   nextId := 5,
   t1 := { phase := VerbApp.TPhase.tenseStep 0 1,
           pending := { verbs := [], modes := [], tenses := [], persons := [], conjs := [] } },
   t2 := { phase := VerbApp.TPhase.finished true,
           pending := { verbs := [], modes := [], tenses := [], persons := [], conjs := [] } } },
 { committed := { verbs := [(0, "falar")],
                  modes := [(1, "Indicativo")],
                  tenses := [(2, "Presente", 1)],
                  persons := [(3, "eu", 0), (4, "tu", 1)],
                  conjs := [{ value := "eu falo", verb := 0, tense := 2, person := 3 },
                            { value := "tu falas", verb := 0, tense := 2, person := 4 }] },
   nextId := 5,
   t1 := { phase := VerbApp.TPhase.finished true,
           pending := { verbs := [], modes := [], tenses := [], persons := [], conjs := [] } },
   t2 := { phase := VerbApp.TPhase.formStep 0 2 ["eu falo", "tu falas"] 0,
           pending := { verbs := [], modes := [], tenses := [], persons := [], conjs := [] } } },
 { committed := { verbs := [(0, "falar")],
                  modes := [(1, "Indicativo")],
                  tenses := [(2, "Presente", 1)],
                  persons := [(3, "eu", 0), (4, "tu", 1)],
                  conjs := [{ value := "eu falo", verb := 0, tense := 2, person := 3 },
                            { value := "tu falas", verb := 0, tense := 2, person := 4 }] },
   nextId := 5,
   t1 := { phase := VerbApp.TPhase.formStep 0 2 ["eu falo", "tu falas"] 0,
           pending := { verbs := [], modes := [], tenses := [], persons := [], conjs := [] } },
   t2 := { phase := VerbApp.TPhase.finished true,
           pending := { verbs := [], modes := [], tenses := [], persons := [], conjs := [] } } },
 { committed := { verbs := [(0, "falar")],
                  modes := [(1, "Indicativo")],
                  tenses := [(2, "Presente", 1)],
                  persons := [(3, "eu", 0), (4, "tu", 1)],
                  conjs := [{ value := "eu falo", verb := 0, tense := 2, person := 3 },
                            { value := "tu falas", verb := 0, tense := 2, person := 4 }] },
   nextId := 5,
   t1 := { phase := VerbApp.TPhase.finished true,
           pending := { verbs := [], modes := [], tenses := [], persons := [], conjs := [] } },
   t2 := { phase := VerbApp.TPhase.formStep 0 2 ["tu falas"] 1,
           pending := { verbs := [], modes := [], tenses := [], persons := [], conjs := [] } } },
 { committed := { verbs := [(0, "falar")],
                  modes := [(1, "Indicativo")],
                  tenses := [(2, "Presente", 1)],
                  persons := [(3, "eu", 0), (4, "tu", 1)],
                  conjs := [{ value := "eu falo", verb := 0, tense := 2, person := 3 },
                            { value := "tu falas", verb := 0, tense := 2, person := 4 }] },
   nextId := 5,
   t1 := { phase := VerbApp.TPhase.formStep 0 2 ["tu falas"] 1,
           pending := { verbs := [], modes := [], tenses := [], persons := [], conjs := [] } },
   t2 := { phase := VerbApp.TPhase.finished true,
           pending := { verbs := [], modes := [], tenses := [], persons := [], conjs := [] } } },
 { committed := { verbs := [(0, "falar")],
                  modes := [(1, "Indicativo")],
                  tenses := [(2, "Presente", 1)],
                  persons := [(3, "eu", 0), (4, "tu", 1)],
                  conjs := [{ value := "eu falo", verb := 0, tense := 2, person := 3 },
                            { value := "tu falas", verb := 0, tense := 2, person := 4 }] },
   nextId := 5,
   t1 := { phase := VerbApp.TPhase.finished true,
           pending := { verbs := [], modes := [], tenses := [], persons := [], conjs := [] } },
   t2 := { phase := VerbApp.TPhase.formStep 0 2 [] 2,
           pending := { verbs := [], modes := [], tenses := [], persons := [], conjs := [] } } },
 { committed := { verbs := [(0, "falar")],
                  modes := [(1, "Indicativo")],
                  tenses := [(2, "Presente", 1)],
                  persons := [(3, "eu", 0), (4, "tu", 1)],
                  conjs := [{ value := "eu falo", verb := 0, tense := 2, person := 3 },
                            { value := "tu falas", verb := 0, tense := 2, person := 4 }] },
   nextId := 5,
   t1 := { phase := VerbApp.TPhase.formStep 0 2 [] 2,
           pending := { verbs := [], modes := [], tenses := [], persons := [], conjs := [] } },
   t2 := { phase := VerbApp.TPhase.finished true,
           pending := { verbs := [], modes := [], tenses := [], persons := [], conjs := [] } } },
 { committed := { verbs := [(0, "falar")],
                  modes := [(1, "Indicativo")],
                  tenses := [(2, "Presente", 1)],
                  persons := [(3, "eu", 0), (4, "tu", 1)],
                  conjs := [{ value := "eu falo", verb := 0, tense := 2, person := 3 },
                            { value := "tu falas", verb := 0, tense := 2, person := 4 }] },
   nextId := 5,
   t1 := { phase := VerbApp.TPhase.finished true,
           pending := { verbs := [], modes := [], tenses := [], persons := [], conjs := [] } },
   t2 := { phase := VerbApp.TPhase.commitStep,
           pending := { verbs := [], modes := [], tenses := [], persons := [], conjs := [] } } },
 { committed := { verbs := [(0, "falar")],
                  modes := [(1, "Indicativo")],
                  tenses := [(2, "Presente", 1)],
                  persons := [(3, "eu", 0), (4, "tu", 1)],
                  conjs := [{ value := "eu falo", verb := 0, tense := 2, person := 3 },
                            { value := "tu falas", verb := 0, tense := 2, person := 4 }] },
   nextId := 5,
   t1 := { phase := VerbApp.TPhase.commitStep,
           pending := { verbs := [], modes := [], tenses := [], persons := [], conjs := [] } },
   t2 := { phase := VerbApp.TPhase.finished true,
           pending := { verbs := [], modes := [], tenses := [], persons := [], conjs := [] } } },
 { committed := { verbs := [(0, "falar")],
                  modes := [(1, "Indicativo")],
                  tenses := [(2, "Presente", 1)],
                  persons := [(3, "eu", 0), (4, "tu", 1)],
                  conjs := [{ value := "eu falo", verb := 0, tense := 2, person := 3 },
                            { value := "tu falas", verb := 0, tense := 2, person := 4 }] },
   nextId := 5,
   t1 := { phase := VerbApp.TPhase.finished true,
           pending := { verbs := [], modes := [], tenses := [], persons := [], conjs := [] } },
   t2 := { phase := VerbApp.TPhase.finished true,
           pending := { verbs := [], modes := [], tenses := [], persons := [], conjs := [] } } }]

def sameVerbSuccT : List Nat := [1, 3, 4, 6, 7, 8, 10, 11, 8, 12, 14, 15, 12, 16, 18, 19, 16, 20, 22, 23, 20, 24, 26, 27, 24, 28, 30, 31, 28, 32, 30, 35, 32, 37, 34, 35, 37, 39, 38, 41, 40, 43, 42, 45, 44, 47, 46, 48, 48]

def sameVerbSuccF : List Nat := [2, 4, 5, 7, 8, 9, 11, 7, 12, 13, 15, 11, 16, 17, 19, 15, 20, 21, 23, 19, 24, 25, 27, 23, 28, 29, 31, 27, 32, 33, 34, 31, 36, 33, 38, 34, 36, 37, 40, 39, 42, 41, 44, 43, 46, 45, 48, 47, 48]

/-- Boolean invariant behind the concurrent-convergence claim, checked on
every reachable state: at most one committed Verb row for the contended
infinitive, never two committed Conjugation rows on one (verb, tense,
person) triple, and exactly one Verb row once both workers finished. -/
def c8Check (g : Machine) : Bool :=
  decide (g.committed.verbCount "falar" ≤ 1) && !g.committed.hasDupConj &&
    (!(decide (g.t1.phase = TPhase.finished true) &&
        decide (g.t2.phase = TPhase.finished true)) ||
      decide (g.committed.verbCount "falar" = 1))

/-- Boolean invariant behind the conflict-recovery claim: no worker ever
finishes with outcome False in the same-verb scenario, although some
schedules drive one worker through the verb-insert conflict branch. -/
def c6Check (g : Machine) : Bool :=
  (match g.t1.phase with | .finished b => b | _ => true) &&
  (match g.t2.phase with | .finished b => b | _ => true)

/-- A committed store as left by two earlier sequential scrapes: a scrape
of ir (Indicativo, Presente) whose source yielded two lines, creating ir,
the mode, the tense and the persons eu and tu, then a scrape of falar
(Indicativo, Futuro do Presente) whose source yielded one line, creating
falar and the second tense.  The store therefore holds the falar Verb row,
the Presente Tense row and the tu Person row, but no Conjugation on the
triple (falar, Presente, tu). -/
def seedStore : Store :=
  ⟨[(0, "ir"), (5, "falar")], [(1, "Indicativo")],
   [(2, ("Presente", 1)), (6, ("Futuro do Presente", 1))],
   [(3, ("eu", 0)), (4, ("tu", 1))],
   [⟨"eu vou", 0, 2, 3⟩, ⟨"tu vais", 0, 2, 4⟩, ⟨"eu falarei", 5, 6, 3⟩]⟩

/-- The contended task run by both workers on top of seedStore. -/
def dupTask : TaskSpec := ⟨"falar", "Indicativo", "Presente", ["eu falo", "tu falas"]⟩

/-- Schedule in which both workers pass the Conjugation existence check
before either commits: worker 1 runs up to its commit point, worker 2 does
the same, then both commit. -/
def dupSched : List Bool :=
  [true, true, true, true, true, true,
   false, false, false, false, false, false, true, false]

/-- Two tasks for different fresh verbs sharing one fresh mode. -/
def modeTaskA : TaskSpec := ⟨"andar", "Indicativo", "Presente", ["eu ando"]⟩

/-- Second task of the mode-conflict scenario. -/
def modeTaskB : TaskSpec := ⟨"correr", "Indicativo", "Presente", ["eu corro"]⟩

/-- Schedule forcing a unique-constraint conflict on the Mode insert: both
workers insert their verbs, both find no Mode row, worker 1 inserts the
mode and runs to commit, then worker 2 reaches its Mode insert after the
mode is committed, which raises and is not locally recovered. -/
def modeSched : List Bool :=
  [true, true, false, false, true, true, false, true, true, true, true, false]

/-- A straight-line schedule: worker 1 runs to completion, then worker 2. -/
def seqSched : List Bool :=
  List.replicate 9 true ++ List.replicate 9 false

/-- Primary-adapter page whose matched tense paragraph contains only one br
segment whose text strips to the empty string. -/
def blankPartsDoc : PrimaryDoc :=
  ⟨[("Indicativo",
     some (fun t => if t = "Presente" then some (some [" "]) else none))]⟩

/-- Backup-adapter page with cells present1 to present6 in which only the
cells 2 to 6 exist and carry a meta-form element. -/
def tailCellsDoc : CoolDoc :=
  ⟨fun cid =>
    if cid = "present2" then some (some "vais")
    else if cid = "present3" then some (some "vai")
    else if cid = "present4" then some (some "vamos")
    else if cid = "present5" then some (some "ides")
    else if cid = "present6" then some (some "vão")
    else if cid = "present1" then none
    else none⟩

/-- Two Conjugation rows differ somewhere on the (verb, tense, person)
key. -/
def DistinctTriple (c1 c2 : Conj) : Prop :=
  ¬(c1.verb = c2.verb ∧ c1.tense = c2.tense ∧ c1.person = c2.person)

/-- The core idempotence invariant of the data model: at most one
Conjugation row per (verb, tense, person) triple. -/
def ConjUnique (db : DB) : Prop := db.conjs.Pairwise DistinctTriple

/-- Batch job row used by the batch witnesses. -/
def jobRec0 : BatchJobRec := ⟨"job1", "pending", 5, 0, 0, none⟩

/-- The five-task example of the spec: three tasks succeed, two fail. -/
def fiveTasks : List ScrapeTask :=
  [⟨"a", "Indicativo", "Presente"⟩, ⟨"a", "Indicativo", "Futuro do Presente"⟩,
   ⟨"a", "Subjuntivo", "Presente"⟩, ⟨"x", "Indicativo", "Presente"⟩,
   ⟨"y", "Indicativo", "Presente"⟩]

/-! ## Proofs -/

lemma all_getD {p : α → Bool} :
    ∀ (l : List α) (i : Nat) (d : α), l.all p = true → i < l.length →
      p (l.getD i d) = true := by
  intro l
  induction l with
  | nil => intro i d _ hi; simp at hi
  | cons a t ih =>
    intro i d hall hi
    rw [List.all_cons, Bool.and_eq_true] at hall
    cases i with
    | zero => simpa using hall.1
    | succ n =>
      rw [List.getD_cons_succ]
      exact ih n d hall.2 (by simpa using hi)

lemma tableOK_step {s1 s2 : TaskSpec} {V : List Machine} {sT sF : List Nat}
    (h : tableOK s1 s2 V sT sF = true) (i : Nat) (hi : i < V.length) (b : Bool) :
    ∃ j, j < V.length ∧ machStep s1 s2 (V.getD i dM) b = V.getD j dM := by
  unfold tableOK at h
  rw [Bool.and_eq_true, Bool.and_eq_true] at h
  have hf := List.all_eq_true.mp h.2 i (List.mem_range.mpr hi)
  rw [Bool.and_eq_true, Bool.and_eq_true, Bool.and_eq_true] at hf
  obtain ⟨⟨⟨hT, hF⟩, hsT⟩, hsF⟩ := hf
  cases b
  · exact ⟨sF.getD i 0, of_decide_eq_true hF, of_decide_eq_true hsF⟩
  · exact ⟨sT.getD i 0, of_decide_eq_true hT, of_decide_eq_true hsT⟩

lemma runSched_table {s1 s2 : TaskSpec} {V : List Machine} {sT sF : List Nat}
    (h : tableOK s1 s2 V sT sF = true) :
    ∀ (sched : List Bool) (i : Nat), i < V.length →
      ∃ j, j < V.length ∧ runSched s1 s2 (V.getD i dM) sched = V.getD j dM := by
  intro sched
  induction sched with
  | nil => intro i hi; exact ⟨i, hi, rfl⟩
  | cons b r ih =>
    intro i hi
    obtain ⟨j, hj, hstep⟩ := tableOK_step h i hi b
    obtain ⟨k, hk, hrun⟩ := ih j hj
    refine ⟨k, hk, ?_⟩
    rw [runSched, hstep, hrun]

lemma runSched_inv {s1 s2 : TaskSpec} {V : List Machine} {sT sF : List Nat}
    (h : tableOK s1 s2 V sT sF = true) (inv : Machine → Bool)
    (hall : V.all inv = true) (i : Nat) (hi : i < V.length) (sched : List Bool) :
    inv (runSched s1 s2 (V.getD i dM) sched) = true := by
  obtain ⟨j, hj, hrun⟩ := runSched_table h sched i hi
  rw [hrun]
  exact all_getD V j dM hall hj

set_option maxHeartbeats 2000000 in
lemma sameVerb_tableOK :
    tableOK sameTask sameTask sameVerbStates sameVerbSuccT sameVerbSuccF = true := by
  decide

lemma sameVerbStates_zero : sameVerbStates.getD 0 dM = initMachine Store.empty 0 := by
  decide

lemma sameVerbStates_pos : 0 < sameVerbStates.length := by
  decide

lemma firstIdx_append_of_some {p : α → Bool} :
    ∀ {l : List α} {i : Nat}, firstIdx p l = some i →
      ∀ (l2 : List α), firstIdx p (l ++ l2) = some i := by
  intro l
  induction l with
  | nil => intro i h; simp [firstIdx] at h
  | cons a t ih =>
    intro i h l2
    simp only [List.cons_append, firstIdx] at h ⊢
    cases hpa : p a
    · simp only [hpa, Bool.false_eq_true, if_false, Option.map_eq_some'] at h ⊢
      obtain ⟨j, hj, hji⟩ := h
      exact ⟨j, ih hj l2, hji⟩
    · simp only [hpa] at h ⊢
      simpa using h

lemma firstIdx_append_self {p : α → Bool} {a : α} :
    ∀ {l : List α}, firstIdx p l = none → p a = true →
      firstIdx p (l ++ [a]) = some l.length := by
  intro l
  induction l with
  | nil => intro _ ha; simp [firstIdx, ha]
  | cons b t ih =>
    intro h ha
    simp only [List.cons_append, firstIdx] at h ⊢
    cases hpb : p b
    · simp only [hpb, Bool.false_eq_true, if_false, Option.map_eq_none'] at h
      simp only [hpb, Bool.false_eq_true, if_false, List.append_eq, ih h ha,
        Option.map_some', List.length_cons]
    · rw [hpb] at h
      simp at h

lemma getOrCreateVerb_found {db : DB} {v : String} {i : Nat} {db1 : DB}
    (h : getOrCreateVerb db v = (i, db1)) :
    firstIdx (· = v) db1.verbs = some i := by
  unfold getOrCreateVerb at h
  cases hf : firstIdx (· = v) db.verbs with
  | some j =>
    rw [hf] at h
    cases h
    exact hf
  | none =>
    rw [hf] at h
    cases h
    exact firstIdx_append_self hf (by simp)

lemma getOrCreateMode_found {db : DB} {m : String} {i : Nat} {db1 : DB}
    (h : getOrCreateMode db m = (i, db1)) :
    firstIdx (· = m) db1.modes = some i := by
  unfold getOrCreateMode at h
  cases hf : firstIdx (· = m) db.modes with
  | some j =>
    rw [hf] at h
    cases h
    exact hf
  | none =>
    rw [hf] at h
    cases h
    exact firstIdx_append_self hf (by simp)

lemma getOrCreateTense_found {db : DB} {t : String} {mid i : Nat} {db1 : DB}
    (h : getOrCreateTense db t mid = (i, db1)) :
    firstIdx (fun r => r.1 = t && r.2 = mid) db1.tenses = some i := by
  unfold getOrCreateTense at h
  cases hf : firstIdx (fun r => r.1 = t && r.2 = mid) db.tenses with
  | some j =>
    rw [hf] at h
    cases h
    exact hf
  | none =>
    rw [hf] at h
    cases h
    exact firstIdx_append_self hf (by simp)

lemma getOrCreatePerson_found {db : DB} {name : String} {so i : Nat} {db1 : DB}
    (h : getOrCreatePerson db name so = (i, db1)) :
    firstIdx (fun r => r.1 = name) db1.persons = some i := by
  unfold getOrCreatePerson at h
  cases hf : firstIdx (fun r : String × Nat => r.1 = name) db.persons with
  | some j =>
    rw [hf] at h
    cases h
    exact hf
  | none =>
    rw [hf] at h
    cases h
    exact firstIdx_append_self hf (by simp)

lemma getOrCreateVerb_rest {db : DB} {v : String} {i : Nat} {db1 : DB}
    (h : getOrCreateVerb db v = (i, db1)) :
    db1.modes = db.modes ∧ db1.tenses = db.tenses ∧ db1.persons = db.persons ∧
      db1.conjs = db.conjs := by
  unfold getOrCreateVerb at h
  cases hf : firstIdx (· = v) db.verbs with
  | some j => rw [hf] at h; cases h; exact ⟨rfl, rfl, rfl, rfl⟩
  | none => rw [hf] at h; cases h; exact ⟨rfl, rfl, rfl, rfl⟩

lemma getOrCreateMode_rest {db : DB} {m : String} {i : Nat} {db1 : DB}
    (h : getOrCreateMode db m = (i, db1)) :
    db1.verbs = db.verbs ∧ db1.tenses = db.tenses ∧ db1.persons = db.persons ∧
      db1.conjs = db.conjs := by
  unfold getOrCreateMode at h
  cases hf : firstIdx (· = m) db.modes with
  | some j => rw [hf] at h; cases h; exact ⟨rfl, rfl, rfl, rfl⟩
  | none => rw [hf] at h; cases h; exact ⟨rfl, rfl, rfl, rfl⟩

lemma getOrCreateTense_rest {db : DB} {t : String} {mid i : Nat} {db1 : DB}
    (h : getOrCreateTense db t mid = (i, db1)) :
    db1.verbs = db.verbs ∧ db1.modes = db.modes ∧ db1.persons = db.persons ∧
      db1.conjs = db.conjs := by
  unfold getOrCreateTense at h
  cases hf : firstIdx (fun r => r.1 = t && r.2 = mid) db.tenses with
  | some j => rw [hf] at h; cases h; exact ⟨rfl, rfl, rfl, rfl⟩
  | none => rw [hf] at h; cases h; exact ⟨rfl, rfl, rfl, rfl⟩

lemma getOrCreatePerson_rest {db : DB} {name : String} {so i : Nat} {db1 : DB}
    (h : getOrCreatePerson db name so = (i, db1)) :
    db1.verbs = db.verbs ∧ db1.modes = db.modes ∧ db1.tenses = db.tenses ∧
      db1.conjs = db.conjs := by
  unfold getOrCreatePerson at h
  cases hf : firstIdx (fun r : String × Nat => r.1 = name) db.persons with
  | some j => rw [hf] at h; cases h; exact ⟨rfl, rfl, rfl, rfl⟩
  | none => rw [hf] at h; cases h; exact ⟨rfl, rfl, rfl, rfl⟩

lemma insertLoop_shape (vid tid off : Nat) :
    ∀ (fs : List String) (i : Nat) (db : DB),
      (insertLoop vid tid off db fs i).verbs = db.verbs ∧
      (insertLoop vid tid off db fs i).modes = db.modes ∧
      (insertLoop vid tid off db fs i).tenses = db.tenses ∧
      (∃ a, (insertLoop vid tid off db fs i).persons = db.persons ++ a) ∧
      (∃ b, (insertLoop vid tid off db fs i).conjs = db.conjs ++ b) := by
  intro fs
  induction fs with
  | nil =>
    intro i db
    exact ⟨rfl, rfl, rfl, ⟨[], by simp [insertLoop]⟩, ⟨[], by simp [insertLoop]⟩⟩
  | cons f rest ih =>
    intro i db
    by_cases hlt : i + off < personNames.length
    · rw [show insertLoop vid tid off db (f :: rest) i =
          insertLoop vid tid off
            (if conjExists (getOrCreatePerson db (personNames.getD (i + off) "")
                (i + off)).2 vid tid
                (getOrCreatePerson db (personNames.getD (i + off) "") (i + off)).1 then
              (getOrCreatePerson db (personNames.getD (i + off) "") (i + off)).2
             else
              { (getOrCreatePerson db (personNames.getD (i + off) "") (i + off)).2 with
                conjs := (getOrCreatePerson db (personNames.getD (i + off) "")
                  (i + off)).2.conjs ++
                  [⟨f, vid, tid,
                    (getOrCreatePerson db (personNames.getD (i + off) "") (i + off)).1⟩] })
            rest (i + 1) from by rw [insertLoop, if_pos hlt]]
      cases hp : getOrCreatePerson db (personNames.getD (i + off) "") (i + off) with
      | mk pid db1 =>
        obtain ⟨hv1, hm1, ht1, hc1⟩ := getOrCreatePerson_rest hp
        have hpext : ∃ a, db1.persons = db.persons ++ a := by
          unfold getOrCreatePerson at hp
          cases hf : firstIdx (fun r : String × Nat => r.1 = personNames.getD (i + off) "")
              db.persons with
          | some j => rw [hf] at hp; cases hp; exact ⟨[], by simp⟩
          | none => rw [hf] at hp; cases hp; exact ⟨_, rfl⟩
        by_cases hce : conjExists db1 vid tid pid
        · rw [if_pos hce]
          obtain ⟨hv3, hm3, ht3, ⟨a3, hp3⟩, ⟨b3, hc3⟩⟩ := ih (i + 1) db1
          obtain ⟨pext, hpe⟩ := hpext
          refine ⟨by rw [hv3, hv1], by rw [hm3, hm1], by rw [ht3, ht1], ?_, ?_⟩
          · exact ⟨pext ++ a3, by rw [hp3, hpe, List.append_assoc]⟩
          · exact ⟨b3, by rw [hc3, hc1]⟩
        · rw [if_neg hce]
          obtain ⟨hv3, hm3, ht3, ⟨a3, hp3⟩, ⟨b3, hc3⟩⟩ :=
            ih (i + 1) { db1 with conjs := db1.conjs ++ [⟨f, vid, tid, pid⟩] }
          obtain ⟨pext, hpe⟩ := hpext
          refine ⟨by rw [hv3, hv1], by rw [hm3, hm1], by rw [ht3, ht1], ?_, ?_⟩
          · exact ⟨pext ++ a3, by simp only at hp3; rw [hp3, hpe, List.append_assoc]⟩
          · refine ⟨⟨f, vid, tid, pid⟩ :: b3, ?_⟩
            simp only at hc3
            rw [hc3, hc1, List.append_assoc]
            rfl
    · rw [show insertLoop vid tid off db (f :: rest) i = db from by
        rw [insertLoop, if_neg hlt]]
      exact ⟨rfl, rfl, rfl, ⟨[], by simp⟩, ⟨[], by simp⟩⟩

lemma conjExists_mono {db db2 : DB} {vid tid pid : Nat} {ext : List Conj}
    (h : conjExists db vid tid pid = true) (hext : db2.conjs = db.conjs ++ ext) :
    conjExists db2 vid tid pid = true := by
  unfold conjExists at h ⊢
  rw [hext, List.any_append, h, Bool.true_or]

lemma getOrCreateVerb_stable {db : DB} {v : String} {i : Nat}
    (h : firstIdx (· = v) db.verbs = some i) : getOrCreateVerb db v = (i, db) := by
  unfold getOrCreateVerb
  rw [h]

lemma getOrCreateMode_stable {db : DB} {m : String} {i : Nat}
    (h : firstIdx (· = m) db.modes = some i) : getOrCreateMode db m = (i, db) := by
  unfold getOrCreateMode
  rw [h]

lemma getOrCreateTense_stable {db : DB} {t : String} {mid i : Nat}
    (h : firstIdx (fun r => r.1 = t && r.2 = mid) db.tenses = some i) :
    getOrCreateTense db t mid = (i, db) := by
  unfold getOrCreateTense
  rw [h]

lemma getOrCreatePerson_stable {db : DB} {name : String} {so i : Nat}
    (h : firstIdx (fun r => r.1 = name) db.persons = some i) :
    getOrCreatePerson db name so = (i, db) := by
  unfold getOrCreatePerson
  rw [h]

lemma insertLoop_cons_pos {vid tid off : Nat} {f : String} {rest : List String}
    {i : Nat} {db : DB} (hlt : i + off < personNames.length) :
    insertLoop vid tid off db (f :: rest) i =
      insertLoop vid tid off
        (if conjExists (getOrCreatePerson db (personNames.getD (i + off) "")
            (i + off)).2 vid tid
            (getOrCreatePerson db (personNames.getD (i + off) "") (i + off)).1 then
          (getOrCreatePerson db (personNames.getD (i + off) "") (i + off)).2
         else
          { (getOrCreatePerson db (personNames.getD (i + off) "") (i + off)).2 with
            conjs := (getOrCreatePerson db (personNames.getD (i + off) "")
              (i + off)).2.conjs ++
              [⟨f, vid, tid,
                (getOrCreatePerson db (personNames.getD (i + off) "") (i + off)).1⟩] })
        rest (i + 1) := by
  rw [insertLoop, if_pos hlt]

lemma insertLoop_cons_neg {vid tid off : Nat} {f : String} {rest : List String}
    {i : Nat} {db : DB} (hlt : ¬ i + off < personNames.length) :
    insertLoop vid tid off db (f :: rest) i = db := by
  rw [insertLoop, if_neg hlt]

lemma conjExists_self {db : DB} {f : String} {vid tid pid : Nat} :
    conjExists { db with conjs := db.conjs ++ [⟨f, vid, tid, pid⟩] } vid tid pid
      = true := by
  simp [conjExists, List.any_append]

lemma insertLoop_idem (vid tid off : Nat) :
    ∀ (fs : List String) (i : Nat) (db : DB),
      insertLoop vid tid off (insertLoop vid tid off db fs i) fs i =
        insertLoop vid tid off db fs i := by
  intro fs
  induction fs with
  | nil => intro i db; rfl
  | cons f rest ih =>
    intro i db
    by_cases hlt : i + off < personNames.length
    · cases hp : getOrCreatePerson db (personNames.getD (i + off) "") (i + off) with
      | mk pid db1 =>
        have hinner : insertLoop vid tid off db (f :: rest) i =
            insertLoop vid tid off
              (if conjExists db1 vid tid pid then db1
               else { db1 with conjs := db1.conjs ++ [⟨f, vid, tid, pid⟩] })
              rest (i + 1) := by
          rw [insertLoop_cons_pos hlt, hp]
        rw [hinner]
        set db2 :=
          if conjExists db1 vid tid pid then db1
          else { db1 with conjs := db1.conjs ++ [⟨f, vid, tid, pid⟩] } with hdb2
        set db3 := insertLoop vid tid off db2 rest (i + 1) with hdb3
        have hp2 : db2.persons = db1.persons := by
          rw [hdb2]
          by_cases hce : conjExists db1 vid tid pid
          · rw [if_pos hce]
          · rw [if_neg hce]
        have hfound : firstIdx (fun r : String × Nat =>
            r.1 = personNames.getD (i + off) "") db1.persons =
            some pid := getOrCreatePerson_found hp
        obtain ⟨_, _, _, ⟨aP, haP⟩, ⟨bC, hbC⟩⟩ :=
          insertLoop_shape vid tid off rest (i + 1) db2
        have hfound3 : firstIdx (fun r : String × Nat =>
            r.1 = personNames.getD (i + off) "") db3.persons = some pid := by
          rw [← hdb3] at haP
          rw [haP, hp2]
          exact firstIdx_append_of_some hfound aP
        have hconj2 : conjExists db2 vid tid pid = true := by
          rw [hdb2]
          by_cases hce : conjExists db1 vid tid pid
          · rw [if_pos hce]; exact hce
          · rw [if_neg hce]; exact conjExists_self
        have hbC3 : db3.conjs = db2.conjs ++ bC := by
          rw [hdb3]
          exact hbC
        have hconj3 : conjExists db3 vid tid pid = true :=
          conjExists_mono hconj2 hbC3
        rw [insertLoop_cons_pos hlt, getOrCreatePerson_stable hfound3]
        simp only [hconj3, if_true]
        rw [hdb3]
        exact ih (i + 1) db2
    · rw [insertLoop_cons_neg hlt]

lemma insertLoop_unique (vid tid off : Nat) :
    ∀ (fs : List String) (i : Nat) (db : DB), ConjUnique db →
      ConjUnique (insertLoop vid tid off db fs i) := by
  intro fs
  induction fs with
  | nil => intro i db h; exact h
  | cons f rest ih =>
    intro i db h
    by_cases hlt : i + off < personNames.length
    · cases hp : getOrCreatePerson db (personNames.getD (i + off) "") (i + off) with
      | mk pid db1 =>
        have hinner : insertLoop vid tid off db (f :: rest) i =
            insertLoop vid tid off
              (if conjExists db1 vid tid pid then db1
               else { db1 with conjs := db1.conjs ++ [⟨f, vid, tid, pid⟩] })
              rest (i + 1) := by
          rw [insertLoop_cons_pos hlt, hp]
        rw [hinner]
        have hc1 : db1.conjs = db.conjs := (getOrCreatePerson_rest hp).2.2.2
        have hu1 : ConjUnique db1 := by
          unfold ConjUnique
          rw [hc1]
          exact h
        by_cases hce : conjExists db1 vid tid pid
        · rw [if_pos hce]
          exact ih (i + 1) db1 hu1
        · rw [if_neg hce]
          refine ih (i + 1) _ ?_
          unfold ConjUnique at hu1 ⊢
          simp only [List.pairwise_append, List.pairwise_singleton, List.mem_singleton]
          refine ⟨hu1, trivial, ?_⟩
          intro x hx y hy
          subst hy
          simp only [conjExists, List.any_eq_true, Bool.and_eq_true, decide_eq_true_eq,
            not_exists, not_and] at hce
          intro hcontra
          obtain ⟨h1, h2, h3⟩ := hcontra
          exact hce x hx ⟨h1, h2⟩ h3
    · rw [insertLoop_cons_neg hlt]
      exact h

lemma persistCore_eq (fs : List String) {db : DB} {v m t : String}
    {vid mid tid : Nat} {db1 db2 db3 : DB}
    (hv : getOrCreateVerb db v = (vid, db1))
    (hm : getOrCreateMode db1 m = (mid, db2))
    (ht : getOrCreateTense db2 t mid = (tid, db3)) :
    persistCore db v m t fs = insertLoop vid tid (impOffset m fs) db3 fs 0 := by
  unfold persistCore
  rw [hv]
  dsimp only
  rw [hm]
  dsimp only
  rw [ht]

lemma persistCore_idem (db : DB) (v m t : String) (fs : List String) :
    persistCore (persistCore db v m t fs) v m t fs = persistCore db v m t fs := by
  cases hv : getOrCreateVerb db v with
  | mk vid db1 =>
    cases hm : getOrCreateMode db1 m with
    | mk mid db2 =>
      cases ht : getOrCreateTense db2 t mid with
      | mk tid db3 =>
        have hinner := persistCore_eq fs hv hm ht
        rw [hinner]
        set dbF := insertLoop vid tid (impOffset m fs) db3 fs 0 with hdbF
        obtain ⟨hFv, hFm, hFt, _, _⟩ :=
          insertLoop_shape vid tid (impOffset m fs) fs 0 db3
        rw [← hdbF] at hFv hFm hFt
        have hvf : getOrCreateVerb dbF v = (vid, dbF) := by
          refine getOrCreateVerb_stable ?_
          rw [hFv, (getOrCreateTense_rest ht).1, (getOrCreateMode_rest hm).1]
          exact getOrCreateVerb_found hv
        have hmf : getOrCreateMode dbF m = (mid, dbF) := by
          refine getOrCreateMode_stable ?_
          rw [hFm, (getOrCreateTense_rest ht).2.1]
          exact getOrCreateMode_found hm
        have htf : getOrCreateTense dbF t mid = (tid, dbF) := by
          refine getOrCreateTense_stable ?_
          rw [hFt]
          exact getOrCreateTense_found ht
        rw [persistCore_eq fs hvf hmf htf, hdbF]
        exact insertLoop_idem vid tid (impOffset m fs) fs 0 db3

lemma persistCore_unique (db : DB) (v m t : String) (fs : List String)
    (h : ConjUnique db) : ConjUnique (persistCore db v m t fs) := by
  cases hv : getOrCreateVerb db v with
  | mk vid db1 =>
    cases hm : getOrCreateMode db1 m with
    | mk mid db2 =>
      cases ht : getOrCreateTense db2 t mid with
      | mk tid db3 =>
        rw [persistCore_eq fs hv hm ht]
        refine insertLoop_unique vid tid (impOffset m fs) fs 0 db3 ?_
        unfold ConjUnique
        rw [(getOrCreateTense_rest ht).2.2.2, (getOrCreateMode_rest hm).2.2.2,
          (getOrCreateVerb_rest hv).2.2.2]
        exact h

lemma take_offset_eq (m : String) (fs : List String) :
    impOffset m (fs.take (6 - impOffset m fs)) = impOffset m fs := by
  unfold impOffset
  by_cases h5 : fs.length = 5 ∧ m = "Imperativo"
  · rw [if_pos h5]
    have htake : fs.take (6 - 1) = fs := List.take_of_length_le (by omega)
    rw [htake, if_pos h5]
  · rw [if_neg h5]
    by_cases h5t : (fs.take (6 - 0)).length = 5 ∧ m = "Imperativo"
    · exfalso
      apply h5
      refine ⟨?_, h5t.2⟩
      have := h5t.1
      rw [List.length_take] at this
      omega
    · rw [if_neg h5t]

lemma insertLoop_take (vid tid off : Nat) :
    ∀ (fs : List String) (i : Nat) (db : DB),
      insertLoop vid tid off db fs i =
        insertLoop vid tid off db (fs.take (personNames.length - off - i)) i := by
  intro fs
  induction fs with
  | nil => intro i db; rw [List.take_nil]
  | cons f rest ih =>
    intro i db
    by_cases hlt : i + off < personNames.length
    · have hk : personNames.length - off - i = (personNames.length - off - (i + 1)) + 1 := by
        have h6 : personNames.length = 6 := rfl
        omega
      rw [hk, List.take_succ_cons]
      cases hp : getOrCreatePerson db (personNames.getD (i + off) "") (i + off) with
      | mk pid db1 =>
        have hstep : ∀ (rest2 : List String),
            insertLoop vid tid off db (f :: rest2) i =
              insertLoop vid tid off
                (if conjExists db1 vid tid pid then db1
                 else { db1 with conjs := db1.conjs ++ [⟨f, vid, tid, pid⟩] })
                rest2 (i + 1) := by
          intro rest2
          rw [insertLoop_cons_pos hlt, hp]
        rw [hstep rest, hstep (rest.take (personNames.length - off - (i + 1)))]
        exact ih (i + 1) _
    · have hk : personNames.length - off - i = 0 := by
        have h6 : personNames.length = 6 := rfl
        omega
      rw [hk, List.take_zero, insertLoop_cons_neg hlt]
      rfl

lemma persistCore_take (db : DB) (v m t : String) (fs : List String) :
    persistCore db v m t fs = persistCore db v m t (fs.take (6 - impOffset m fs)) := by
  cases hv : getOrCreateVerb db v with
  | mk vid db1 =>
    cases hm : getOrCreateMode db1 m with
    | mk mid db2 =>
      cases ht : getOrCreateTense db2 t mid with
      | mk tid db3 =>
        rw [persistCore_eq fs hv hm ht,
          persistCore_eq (fs.take (6 - impOffset m fs)) hv hm ht,
          take_offset_eq]
        have h6 : (6 : Nat) - impOffset m fs =
            personNames.length - impOffset m fs - 0 := rfl
        rw [h6]
        exact insertLoop_take vid tid (impOffset m fs) fs 0 db3

lemma get_or_create_eq_of_resolve
    {primary backup : String → String → String → Option (List String)}
    (db : DB) {v m t : String} {fs : List String}
    (hr : resolveForms primary backup v m t = some fs) (hne : fs.isEmpty = false) :
    get_or_create_verb_data primary backup db v m t =
      (true, persistCore db v m t fs) := by
  unfold get_or_create_verb_data
  rw [hr]
  simp [hne]

lemma firstIdx_none_of_all {p : α → Bool} :
    ∀ {l : List α}, (∀ x ∈ l, p x = false) → firstIdx p l = none := by
  intro l
  induction l with
  | nil => intro _; rfl
  | cons a t ih =>
    intro h
    have ha : p a = false := h a (List.mem_cons_self a t)
    simp only [firstIdx, ha, Bool.false_eq_true, if_false, Option.map_eq_none']
    exact ih (fun x hx => h x (List.mem_cons_of_mem a hx))

lemma personNames_getD_inj :
    ∀ x < 6, ∀ y < 6,
      personNames.getD x "" = personNames.getD y "" → x = y := by
  decide

lemma insertLoop_fresh (vid tid off : Nat) :
    ∀ (fs : List String) (i : Nat) (db : DB),
      db.persons = (List.range i).map
        (fun j => (personNames.getD (j + off) "", j + off)) →
      (∀ c ∈ db.conjs, c.person < i) →
      insertLoop vid tid off db fs i =
        { db with persons := db.persons ++ freshPersons fs i off,
                  conjs := db.conjs ++ freshConjs vid tid fs i off } := by
  intro fs
  induction fs with
  | nil =>
    intro i db _ _
    simp [insertLoop, freshPersons, freshConjs]
  | cons f rest ih =>
    intro i db hpers hconjs
    by_cases hlt : i + off < personNames.length
    · have hlookup : firstIdx (fun r : String × Nat =>
          r.1 = personNames.getD (i + off) "") db.persons = none := by
        apply firstIdx_none_of_all
        intro x hx
        rw [hpers] at hx
        simp only [List.mem_map, List.mem_range] at hx
        obtain ⟨j, hj, rfl⟩ := hx
        simp only [decide_eq_false_iff_not]
        intro heq
        have h6 : personNames.length = 6 := rfl
        have := personNames_getD_inj (j + off) (by omega) (i + off) (by omega) heq
        omega
      have hlen : db.persons.length = i := by
        rw [hpers]
        simp
      have hp : getOrCreatePerson db (personNames.getD (i + off) "") (i + off) =
          (i, { db with persons :=
            db.persons ++ [(personNames.getD (i + off) "", i + off)] }) := by
        unfold getOrCreatePerson
        rw [hlookup, hlen]
      have hce : conjExists { db with persons :=
          db.persons ++ [(personNames.getD (i + off) "", i + off)] } vid tid i
          = false := by
        simp only [conjExists, List.any_eq_false]
        intro c hc
        simp only [Bool.and_eq_true, decide_eq_true_eq, not_and]
        intro _ _
        have := hconjs c hc
        omega
      rw [insertLoop_cons_pos hlt, hp]
      dsimp only
      rw [hce]
      simp only [Bool.false_eq_true, if_false]
      rw [ih (i + 1) _ ?_ ?_]
      · simp only [freshPersons, freshConjs, hlt, if_pos]
        simp [List.append_assoc]
      · simp only [List.range_succ, List.map_append, hpers]
        simp
      · intro c hc
        simp only [List.mem_append, List.mem_singleton] at hc
        cases hc with
        | inl h => have := hconjs c h; omega
        | inr h => subst h; exact Nat.lt_succ_self i
    · rw [insertLoop_cons_neg hlt]
      simp [freshPersons, freshConjs, hlt]

/-- C1 — Idempotence of persistence: whenever a call to
get_or_create_verb_data succeeds, running it again with the same inputs
returns True and leaves the whole store, in particular the Conjugation
table, unchanged (so no existing row value is ever updated), and every
call preserves the at-most-one-Conjugation-per-(verb, tense, person)
invariant. -/
theorem c1_persist_idempotent
    (primary backup : String → String → String → Option (List String))
    (db : DB) (v m t : String)
    (hsucc : (get_or_create_verb_data primary backup db v m t).1 = true) :
    get_or_create_verb_data primary backup
        (get_or_create_verb_data primary backup db v m t).2 v m t =
      (true, (get_or_create_verb_data primary backup db v m t).2) ∧
    (ConjUnique db → ConjUnique (get_or_create_verb_data primary backup db v m t).2) := by
  cases hr : resolveForms primary backup v m t with
  | none =>
    exfalso
    unfold get_or_create_verb_data at hsucc
    rw [hr] at hsucc
    simp at hsucc
  | some fs =>
    cases hne : fs.isEmpty with
    | true =>
      exfalso
      unfold get_or_create_verb_data at hsucc
      rw [hr] at hsucc
      simp [hne] at hsucc
    | false =>
      have hmain := get_or_create_eq_of_resolve db hr hne
      rw [hmain]
      refine ⟨?_, fun hu => persistCore_unique db v m t fs hu⟩
      have h2 := get_or_create_eq_of_resolve (persistCore db v m t fs) hr hne
      rw [h2, persistCore_idem]

/-- Witness for c1_persist_idempotent at the gold-standard example: verb
comer, Indicativo Presente, all six source lines. -/
theorem c1_persist_idempotent_witness :
    (get_or_create_verb_data
        (fun _ _ _ => some ["eu como", "tu comes", "ele come", "nós comemos",
          "vós comeis", "eles comem"])
        (fun _ _ _ => none) DB.empty "comer" "Indicativo" "Presente").1 = true ∧
    get_or_create_verb_data
        (fun _ _ _ => some ["eu como", "tu comes", "ele come", "nós comemos",
          "vós comeis", "eles comem"])
        (fun _ _ _ => none)
        (get_or_create_verb_data
          (fun _ _ _ => some ["eu como", "tu comes", "ele come", "nós comemos",
            "vós comeis", "eles comem"])
          (fun _ _ _ => none) DB.empty "comer" "Indicativo" "Presente").2
        "comer" "Indicativo" "Presente" =
      (true, (get_or_create_verb_data
        (fun _ _ _ => some ["eu como", "tu comes", "ele come", "nós comemos",
          "vós comeis", "eles comem"])
        (fun _ _ _ => none) DB.empty "comer" "Indicativo" "Presente").2) :=
  ⟨by decide, (c1_persist_idempotent _ _ _ _ _ _ (by decide)).1⟩

/-- C2 — Person-mapping correctness: on a fresh store, a 6-element form
list is persisted with forms at position i attached to the Person with
name personNames at i and sort_order i, for any mode; a 5-element list
with mode Imperativo is persisted with forms at position i attached to the
Person with name personNames at i + 1 and sort_order i + 1, so the person
eu never appears; and in general the loop only ever consumes the first
6 - offset forms, silently dropping any form whose mapped person index
would exceed 5. -/
theorem c2_person_mapping
    (backup : String → String → String → Option (List String))
    (v m t a b c d e f : String) :
    get_or_create_verb_data (fun _ _ _ => some [a, b, c, d, e, f]) backup
        DB.empty v m t =
      (true, ⟨[v], [m], [(t, 0)],
        [("eu", 0), ("tu", 1), ("ele/ela/você", 2), ("nós", 3), ("vós", 4),
         ("eles/elas/vocês", 5)],
        [⟨a, 0, 0, 0⟩, ⟨b, 0, 0, 1⟩, ⟨c, 0, 0, 2⟩, ⟨d, 0, 0, 3⟩, ⟨e, 0, 0, 4⟩,
         ⟨f, 0, 0, 5⟩]⟩) ∧
    get_or_create_verb_data (fun _ _ _ => some [a, b, c, d, e]) backup
        DB.empty v "Imperativo" t =
      (true, ⟨[v], ["Imperativo"], [(t, 0)],
        [("tu", 1), ("ele/ela/você", 2), ("nós", 3), ("vós", 4),
         ("eles/elas/vocês", 5)],
        [⟨a, 0, 0, 0⟩, ⟨b, 0, 0, 1⟩, ⟨c, 0, 0, 2⟩, ⟨d, 0, 0, 3⟩, ⟨e, 0, 0, 4⟩]⟩) ∧
    (∀ (db : DB) (fs : List String),
      persistCore db v m t fs = persistCore db v m t (fs.take (6 - impOffset m fs))) := by
  refine ⟨?_, ?_, fun db fs => persistCore_take db v m t fs⟩
  · have hr : resolveForms (fun _ _ _ => some [a, b, c, d, e, f]) backup v m t =
        some [a, b, c, d, e, f] := rfl
    rw [get_or_create_eq_of_resolve DB.empty hr rfl]
    have hv : getOrCreateVerb DB.empty v = (0, ⟨[v], [], [], [], []⟩) := rfl
    have hm : getOrCreateMode ⟨[v], [], [], [], []⟩ m = (0, ⟨[v], [m], [], [], []⟩) := rfl
    have ht : getOrCreateTense ⟨[v], [m], [], [], []⟩ t 0 =
        (0, ⟨[v], [m], [(t, 0)], [], []⟩) := rfl
    rw [persistCore_eq [a, b, c, d, e, f] hv hm ht]
    have hoff : impOffset m [a, b, c, d, e, f] = 0 := by
      unfold impOffset
      rw [if_neg]
      intro hcon
      simp at hcon
    rw [hoff,
      insertLoop_fresh 0 0 0 [a, b, c, d, e, f] 0 _ (by simp) (by simp)]
    rfl
  · have hr : resolveForms (fun _ _ _ => some [a, b, c, d, e]) backup v
        "Imperativo" t = some [a, b, c, d, e] := rfl
    rw [get_or_create_eq_of_resolve DB.empty hr rfl]
    have hv : getOrCreateVerb DB.empty v = (0, ⟨[v], [], [], [], []⟩) := rfl
    have hm : getOrCreateMode ⟨[v], [], [], [], []⟩ "Imperativo" =
        (0, ⟨[v], ["Imperativo"], [], [], []⟩) := rfl
    have ht : getOrCreateTense ⟨[v], ["Imperativo"], [], [], []⟩ t 0 =
        (0, ⟨[v], ["Imperativo"], [(t, 0)], [], []⟩) := rfl
    rw [persistCore_eq [a, b, c, d, e] hv hm ht]
    have hoff : impOffset "Imperativo" [a, b, c, d, e] = 1 := rfl
    rw [hoff,
      insertLoop_fresh 0 0 1 [a, b, c, d, e] 0 _ (by simp) (by simp)]
    rfl

lemma insertLoopE_none (vid tid off : Nat) :
    ∀ (fs : List String) (i : Nat) (db : DB),
      insertLoopE none vid tid off db fs i =
        .ok (insertLoop vid tid off db fs i) := by
  intro fs
  induction fs with
  | nil => intro i db; rfl
  | cons f rest ih =>
    intro i db
    rw [insertLoopE, insertLoop]
    by_cases hlt : i + off < personNames.length
    · rw [if_pos hlt, if_pos hlt]
      simp only [chkFault, reduceCtorEq, if_neg]
      exact ih (i + 1) _
    · rw [if_neg hlt, if_neg hlt]

lemma persistCoreE_none (db : DB) (v m t : String) (fs : List String) :
    persistCoreE none db v m t fs = .ok (persistCore db v m t fs) := by
  unfold persistCoreE persistCore
  simp [chkFault, insertLoopE_none]

/-- C3 — Failover order: when the primary adapter yields forms, the
resolver returns exactly the primary result and never consults the backup
adapter (the result is the same for every backup adapter); when the
primary result is falsy, the resolver returns the backup result for the
identical arguments; and resolution is falsy exactly when both adapter
results are falsy.  Each adapter is consulted through its single result
for the given arguments, so there is no retry of an adapter. -/
theorem c3_failover
    (primary backup : String → String → String → Option (List String))
    (v m t : String) :
    (formsFail (primary v m t) = false →
      resolveForms primary backup v m t = primary v m t ∧
      ∀ backup2, resolveForms primary backup2 v m t = primary v m t) ∧
    (formsFail (primary v m t) = true →
      resolveForms primary backup v m t = backup v m t) ∧
    (formsFail (resolveForms primary backup v m t) = true ↔
      formsFail (primary v m t) = true ∧ formsFail (backup v m t) = true) := by
  unfold resolveForms
  cases hp : formsFail (primary v m t) with
  | false => simp [hp]
  | true => simp [hp]

/-- Witness for c3_failover: the primary adapter times out, the backup
answers, and the resolver returns the backup result. -/
theorem c3_failover_witness :
    formsFail ((fun _ _ _ => (none : Option (List String)))
      "ir" "Indicativo" "Presente") = true ∧
    resolveForms (fun _ _ _ => none) (fun _ _ _ => some ["eu vou"])
      "ir" "Indicativo" "Presente" = some ["eu vou"] :=
  ⟨rfl, (c3_failover (fun _ _ _ => none) (fun _ _ _ => some ["eu vou"])
    "ir" "Indicativo" "Presente").2.1 rfl⟩

/-- C4 as amended — Adapter failure totality: the primary adapter returns
the failure value None, and never raises, on a failed fetch (timeout,
non-2xx, connection error), on an absent mode heading and on a missing
tense paragraph, but when the tense paragraph is present it returns the
cleaned line list even when that list is empty — the empty list, a
success-typed value, rather than None — which the resolver then treats as
falsy failure.  The backup adapter returns None only when the (mode,
tense) pair has no id mapping; on every mapped call it raises an
AttributeError past its boundary before the request is even issued
(backup_scraper.py line 60 reads the never-assigned attribute headers and
the handler catches only requests.RequestException), so it never returns
a failure value on network failure, absent cells or empty extraction. -/
theorem c4_adapter_failure (mode tense : String) :
    ConjugacaoScraper.get_conjugations none mode tense = none ∧
    (∀ doc : PrimaryDoc, (doc.headers.filter (fun h => h.1 = mode)).isEmpty = true →
      ConjugacaoScraper.get_conjugations (some doc) mode tense = none) ∧
    (∀ doc : PrimaryDoc,
      (doc.headers.filter (fun h => h.1 = mode)).isEmpty = false →
      findParagraph tense (doc.headers.filter (fun h => h.1 = mode)) = none →
      ConjugacaoScraper.get_conjugations (some doc) mode tense = none) ∧
    (∀ (doc : PrimaryDoc) (parts : List String),
      (doc.headers.filter (fun h => h.1 = mode)).isEmpty = false →
      findParagraph tense (doc.headers.filter (fun h => h.1 = mode)) = some parts →
      ConjugacaoScraper.get_conjugations (some doc) mode tense =
        some ((parts.map pyStrip).filter (fun s => s ≠ ""))) ∧
    (lookupMapId mode tense = none →
      CooljugatorScraper.get_conjugations mode tense = .ok none) ∧
    (∀ idStem : String, lookupMapId mode tense = some idStem →
      CooljugatorScraper.get_conjugations mode tense = .error ()) := by
  refine ⟨rfl, ?_, ?_, ?_, ?_, ?_⟩
  · intro doc hempty
    unfold ConjugacaoScraper.get_conjugations
    simp [hempty]
  · intro doc hempty hpar
    unfold ConjugacaoScraper.get_conjugations
    simp [hempty, hpar]
  · intro doc parts hempty hpar
    unfold ConjugacaoScraper.get_conjugations
    simp [hempty, hpar]
  · intro hmap
    unfold CooljugatorScraper.get_conjugations
    rw [hmap]
  · intro idStem hmap
    unfold CooljugatorScraper.get_conjugations
    rw [hmap]

/-- Witness for c4_adapter_failure at concrete inputs: an unmapped
(mode, tense) pair for the backup adapter, a mapped pair showing the
escaping exception, and a primary page without the requested mode. -/
theorem c4_adapter_failure_witness :
    lookupMapId "Indicativo" "Presente do Conjuntivo" = none ∧
    CooljugatorScraper.get_conjugations "Indicativo" "Presente do Conjuntivo" =
      .ok none ∧
    CooljugatorScraper.get_conjugations "Indicativo" "Presente" = .error () ∧
    (((⟨[]⟩ : PrimaryDoc).headers.filter (fun h => h.1 = "Indicativo")).isEmpty
      = true) ∧
    ConjugacaoScraper.get_conjugations (some ⟨[]⟩) "Indicativo" "Presente" = none :=
  ⟨rfl,
   (c4_adapter_failure "Indicativo" "Presente do Conjuntivo").2.2.2.2.1 rfl,
   (c4_adapter_failure "Indicativo" "Presente").2.2.2.2.2 "present" rfl,
   rfl,
   (c4_adapter_failure "Indicativo" "Presente").2.1 ⟨[]⟩ rfl⟩

/-- Counterexample to C4 as stated, in both adapters.  Primary: on a page
whose matched tense paragraph is present but whose only br segment strips
to the empty string, the final extracted list is empty yet
ConjugacaoScraper.get_conjugations returns the empty list — a value of
the success type — instead of the failure value None (scraper.py line 107
returns clean_lines unconditionally).  Backup: for the mapped pair
(Indicativo, Presente) the adapter does not return a failure value at
all, on network timeout or otherwise — it raises an AttributeError past
its boundary, because backup_scraper.py line 60 reads self.headers, which
no constructor assigns (base_scraper.py sets only session.headers), and
the except clause catches only requests.RequestException. -/
theorem c4_counterexample :
    ConjugacaoScraper.get_conjugations (some blankPartsDoc) "Indicativo" "Presente"
        = some [] ∧
    some ([] : List String) ≠ none ∧
    CooljugatorScraper.get_conjugations "Indicativo" "Presente" = .error () ∧
    (Except.error () : Except Unit (Option (List String))) ≠ .ok none := by
  refine ⟨?_, by simp, rfl, by simp⟩
  decide

/-- C5 — No partial data on failed persist: when both adapters produce
falsy results the call returns False with the store untouched (so no Verb
row is created); whenever the call returns False, under any store-fault
oracle, the committed store equals the original store (the transaction is
rolled back as a whole); and the fault-free run coincides with the
sequential model. -/
theorem c5_no_partial_data
    (primary backup : String → String → String → Option (List String))
    (db : DB) (v m t : String) (fault : Option Nat) :
    (formsFail (primary v m t) = true → formsFail (backup v m t) = true →
      get_or_create_verb_dataE fault primary backup db v m t = (false, db)) ∧
    ((get_or_create_verb_dataE fault primary backup db v m t).1 = false →
      (get_or_create_verb_dataE fault primary backup db v m t).2 = db) ∧
    get_or_create_verb_dataE none primary backup db v m t =
      get_or_create_verb_data primary backup db v m t := by
  refine ⟨?_, ?_, ?_⟩
  · intro hp hb
    have hr : resolveForms primary backup v m t = backup v m t := by
      unfold resolveForms
      simp [hp]
    unfold get_or_create_verb_dataE
    rw [hr]
    cases hbv : backup v m t with
    | none => rfl
    | some l =>
      rw [hbv] at hb
      have hl : l = [] := by
        simpa [formsFail, List.isEmpty_iff] using hb
      subst hl
      rfl
  · cases hr : resolveForms primary backup v m t with
    | none =>
      unfold get_or_create_verb_dataE
      rw [hr]
      intro _
      rfl
    | some fs =>
      unfold get_or_create_verb_dataE
      rw [hr]
      cases hne : fs.isEmpty with
      | true =>
        simp [hne]
      | false =>
        simp only [hne, Bool.false_eq_true, if_false]
        cases hpc : persistCoreE fault db v m t fs with
        | ok db1 => intro hcon; simp at hcon
        | error e => intro _; rfl
  · cases hr : resolveForms primary backup v m t with
    | none =>
      unfold get_or_create_verb_dataE get_or_create_verb_data
      rw [hr]
    | some fs =>
      unfold get_or_create_verb_dataE get_or_create_verb_data
      rw [hr]
      cases hne : fs.isEmpty with
      | true => simp [hne]
      | false =>
        simp only [hne, Bool.false_eq_true, if_false]
        rw [persistCoreE_none]

/-- Witness for c5_no_partial_data: both adapters fail and a fault oracle
is armed; the call reports False and the empty store is unchanged. -/
theorem c5_no_partial_data_witness :
    get_or_create_verb_dataE (some 0) (fun _ _ _ => none) (fun _ _ _ => none)
      DB.empty "falar" "Indicativo" "Presente" = (false, DB.empty) :=
  (c5_no_partial_data (fun _ _ _ => none) (fun _ _ _ => none) DB.empty
    "falar" "Indicativo" "Presente" (some 0)).1 rfl rfl

lemma sameVerb_run_inv (inv : Machine → Bool)
    (hall : sameVerbStates.all inv = true) (sched : List Bool) :
    inv (runSched sameTask sameTask (initMachine Store.empty 0) sched) = true := by
  have h := runSched_inv sameVerb_tableOK inv hall 0 sameVerbStates_pos sched
  rw [sameVerbStates_zero] at h
  exact h

/-- C6 as amended — Conflict recovery: in the two-thread model, a
unique-constraint conflict on the Verb insert is recovered locally by
rollback and re-read and never surfaces: for every schedule of two
same-verb tasks from an empty store, neither worker ever finishes with
outcome False.  (The Mode insert has no such local recovery — see the
counterexample — and the Tense and Person tables carry no unique
constraint, so no conflict can arise on their inserts.) -/
theorem c6_conflict_recovery (sched : List Bool) :
    (runSched sameTask sameTask (initMachine Store.empty 0) sched).t1.phase ≠
        TPhase.finished false ∧
    (runSched sameTask sameTask (initMachine Store.empty 0) sched).t2.phase ≠
        TPhase.finished false := by
  have h := sameVerb_run_inv c6Check (by decide) sched
  unfold c6Check at h
  rw [Bool.and_eq_true] at h
  constructor
  · intro hf
    rw [hf] at h
    simp at h
  · intro hf
    rw [hf] at h
    simp at h

/-- Witness for c6_conflict_recovery at the sequential schedule. -/
theorem c6_conflict_recovery_witness :
    (runSched sameTask sameTask (initMachine Store.empty 0) seqSched).t1.phase ≠
        TPhase.finished false ∧
    (runSched sameTask sameTask (initMachine Store.empty 0) seqSched).t2.phase ≠
        TPhase.finished false :=
  c6_conflict_recovery seqSched

/-- Counterexample to C6 as stated: two tasks for different fresh verbs
sharing one fresh mode.  Worker 1 commits the mode; worker 2 then flushes
its own Mode insert, the unique constraint on modes.name raises, and the
error is caught only by the outer handler (lines 160-163), which rolls the
whole session back: worker 2 finishes with outcome False and its verb row
is discarded.  A unique-constraint violation on a Mode insert is therefore
surfaced as a task failure, contradicting the claim that every
get-or-create insert conflict is recovered locally. -/
theorem c6_counterexample :
    (runSched modeTaskA modeTaskB (initMachine Store.empty 0) modeSched).t2.phase =
        TPhase.finished false ∧
    (runSched modeTaskA modeTaskB
      (initMachine Store.empty 0) modeSched).committed.verbCount "correr" = 0 ∧
    (runSched modeTaskA modeTaskB
      (initMachine Store.empty 0) modeSched).committed.verbCount "andar" = 1 := by
  refine ⟨?_, ?_, ?_⟩ <;> decide

/-- C8 as amended — Concurrent convergence: for two concurrent tasks for
the same fresh verb, mode and tense, every schedule keeps at most one
committed Verb row for that infinitive and no duplicated Conjugation
triple, and once both workers have finished there is exactly one Verb
row.  (Convergence relies on the verbs unique constraint serializing the
two sessions; when the contended rows already exist it fails — see the
counterexample.) -/
theorem c8_concurrent_convergence (sched : List Bool) :
    (runSched sameTask sameTask
      (initMachine Store.empty 0) sched).committed.verbCount "falar" ≤ 1 ∧
    (runSched sameTask sameTask
      (initMachine Store.empty 0) sched).committed.hasDupConj = false ∧
    ((runSched sameTask sameTask (initMachine Store.empty 0) sched).t1.phase =
        TPhase.finished true →
      (runSched sameTask sameTask (initMachine Store.empty 0) sched).t2.phase =
        TPhase.finished true →
      (runSched sameTask sameTask
        (initMachine Store.empty 0) sched).committed.verbCount "falar" = 1) := by
  have h := sameVerb_run_inv c8Check (by decide) sched
  unfold c8Check at h
  rw [Bool.and_eq_true, Bool.and_eq_true] at h
  obtain ⟨⟨h1, h2⟩, h3⟩ := h
  refine ⟨of_decide_eq_true h1, by simpa using h2, ?_⟩
  intro ht1 ht2
  rw [Bool.or_eq_true] at h3
  cases h3 with
  | inl hno =>
    exfalso
    rw [ht1, ht2] at hno
    simp at hno
  | inr hc => exact of_decide_eq_true hc

/-- Witness for c8_concurrent_convergence at the sequential schedule: both
workers finish True and exactly one falar Verb row is committed. -/
theorem c8_concurrent_convergence_witness :
    (runSched sameTask sameTask (initMachine Store.empty 0) seqSched).committed.verbCount
        "falar" = 1 :=
  (c8_concurrent_convergence seqSched).2.2 (by decide) (by decide)

/-- Counterexample to C8 as stated: on a store already holding the verb,
mode, tense and person rows (left by earlier scrapes) but not the
contended Conjugation, both workers pass the Conjugation existence check
before either commits; the conjugations table has no unique constraint on
(verb_id, tense_id, person_id), so both pending rows are committed and the
triple is duplicated, under this interleaving, with both workers reporting
success. -/
theorem c8_counterexample :
    (runSched dupTask dupTask (initMachine seedStore 7) dupSched).t1.phase =
        TPhase.finished true ∧
    (runSched dupTask dupTask (initMachine seedStore 7) dupSched).t2.phase =
        TPhase.finished true ∧
    (runSched dupTask dupTask (initMachine seedStore 7) dupSched).committed.verbCount
        "falar" = 1 ∧
    (runSched dupTask dupTask (initMachine seedStore 7) dupSched).committed.hasDupConj
        = true := by
  refine ⟨?_, ?_, ?_, ?_⟩ <;> decide

lemma count_map_true (f : α → Bool) :
    ∀ l : List α, (l.map f).count true = (l.filter f).length := by
  intro l
  induction l with
  | nil => rfl
  | cons a t ih =>
    cases ha : f a
    · simp [List.count_cons, List.filter_cons, ha, ih]
    · simp [List.count_cons, List.filter_cons, ha, ih]

lemma count_map_false (f : α → Bool) :
    ∀ l : List α, (l.map f).count false = (l.filter (fun x => !(f x))).length := by
  intro l
  induction l with
  | nil => rfl
  | cons a t ih =>
    cases ha : f a
    · simp [List.count_cons, List.filter_cons, ha, ih]
    · simp [List.count_cons, List.filter_cons, ha, ih]

lemma filter_split_length (f : α → Bool) (l : List α) :
    (l.filter f).length + (l.filter (fun x => !(f x))).length = l.length := by
  induction l with
  | nil => rfl
  | cons a t ih =>
    cases ha : f a
    · simp [List.filter_cons, ha, ← ih]
      omega
    · simp [List.filter_cons, ha, ← ih]
      omega

lemma findJob_updateJob {jobs : List BatchJobRec} {jid : String} {job : BatchJobRec}
    (h : findJob jobs jid = some job) (f : BatchJobRec → BatchJobRec)
    (hf : ∀ j, (f j).id = j.id) :
    findJob (updateJob jobs jid f) jid = some (f job) := by
  induction jobs with
  | nil => simp [findJob] at h
  | cons j0 rest ih =>
    unfold updateJob at ih ⊢
    rw [List.map_cons]
    simp only [findJob] at h ⊢
    by_cases hid : j0.id = jid
    · rw [if_pos hid] at h
      injection h with hjj
      subst hjj
      rw [if_pos hid, if_pos ((hf j0).trans hid)]
    · rw [if_neg hid] at h
      rw [if_neg hid, if_neg hid]
      exact ih h

lemma updateJob_not_found {jobs : List BatchJobRec} {jid : String}
    (h : findJob jobs jid = none) (f : BatchJobRec → BatchJobRec) :
    updateJob jobs jid f = jobs := by
  induction jobs with
  | nil => rfl
  | cons j0 rest ih =>
    unfold updateJob at ih ⊢
    simp only [findJob] at h
    by_cases hid : j0.id = jid
    · rw [if_pos hid] at h
      cases h
    · rw [if_neg hid] at h
      rw [List.map_cons, if_neg hid, ih h]

/-- C7 — Batch aggregation: the summary has total equal to the number of
tasks, success equal to the number of tasks whose persist outcome is True
and failed equal to the number whose outcome is False, the two counts
summing to the total; the empty task list gives (0, 0, 0); and when a
job id referring to an existing BatchJob row is given, that row is
finalized with status completed, the summary counts, and a completion
timestamp. -/
theorem c7_batch_aggregation
    (persistOutcome : ScrapeTask → Bool) (now : Nat)
    (jobs : List BatchJobRec) (tasks : List ScrapeTask) (jobId : Option String) :
    (process_batch persistOutcome now jobs tasks jobId).1 =
      (tasks.length, (tasks.filter persistOutcome).length,
        (tasks.filter (fun x => !(persistOutcome x))).length) ∧
    (tasks.filter persistOutcome).length +
        (tasks.filter (fun x => !(persistOutcome x))).length = tasks.length ∧
    (tasks = [] → (process_batch persistOutcome now jobs tasks jobId).1 = (0, 0, 0)) ∧
    (∀ (jid : String) (job : BatchJobRec), jobId = some jid →
      findJob jobs jid = some job →
      findJob (process_batch persistOutcome now jobs tasks jobId).2 jid =
        some { job with status := "completed",
                        success_count := (tasks.filter persistOutcome).length,
                        failed_count :=
                          (tasks.filter (fun x => !(persistOutcome x))).length,
                        completed_at := some now }) := by
  have hsum0 : (process_batch persistOutcome now jobs tasks jobId).1 =
      (tasks.length, (tasks.map persistOutcome).count true,
        (tasks.map persistOutcome).count false) := rfl
  have hsum : (process_batch persistOutcome now jobs tasks jobId).1 =
      (tasks.length, (tasks.filter persistOutcome).length,
        (tasks.filter (fun x => !(persistOutcome x))).length) := by
    rw [hsum0, count_map_true, count_map_false]
  refine ⟨hsum, filter_split_length persistOutcome tasks, ?_, ?_⟩
  · intro he
    subst he
    rw [hsum]
    rfl
  · intro jid job hjid hfind
    subst hjid
    have hjobs : (process_batch persistOutcome now jobs tasks (some jid)).2 =
        updateJob (updateJob jobs jid (fun j => { j with status := "processing" }))
          jid (fun j =>
            { j with status := "completed",
                     success_count := (tasks.map persistOutcome).count true,
                     failed_count := (tasks.map persistOutcome).count false,
                     completed_at := some now }) := rfl
    rw [hjobs, ← count_map_true persistOutcome tasks,
      ← count_map_false persistOutcome tasks]
    have h1 := findJob_updateJob hfind
      (fun j => { j with status := "processing" }) (fun _ => rfl)
    exact findJob_updateJob h1 _ (fun _ => rfl)

/-- Witness for c7_batch_aggregation at the five-task spec example: three
adapters succeed, two fail, the job is finalized with matching counts, and
the empty list gives the zero summary. -/
theorem c7_batch_aggregation_witness :
    (process_batch (fun task => task.verb == "a") 7 [jobRec0] fiveTasks
        (some "job1")).1 = (5, 3, 2) ∧
    findJob (process_batch (fun task => task.verb == "a") 7 [jobRec0] fiveTasks
        (some "job1")).2 "job1" =
      some ⟨"job1", "completed", 5, 3, 2, some 7⟩ ∧
    (process_batch (fun task => task.verb == "a") 7 [jobRec0] []
        (some "job1")).1 = (0, 0, 0) :=
  ⟨((c7_batch_aggregation (fun task => task.verb == "a") 7 [jobRec0] fiveTasks
      (some "job1")).1).trans (by decide),
   ((c7_batch_aggregation (fun task => task.verb == "a") 7 [jobRec0] fiveTasks
      (some "job1")).2.2.2 "job1" jobRec0 rfl rfl).trans (by decide),
   (c7_batch_aggregation (fun task => task.verb == "a") 7 [jobRec0] []
      (some "job1")).2.2.1 rfl⟩

/-- C10 — Unknown job id tolerance: when the given job id matches no
BatchJob row, both status updates are skipped and the call behaves exactly
as if no job id had been given: same summary, job table untouched. -/
theorem c10_unknown_job
    (persistOutcome : ScrapeTask → Bool) (now : Nat)
    (jobs : List BatchJobRec) (tasks : List ScrapeTask) (jid : String)
    (h : findJob jobs jid = none) :
    process_batch persistOutcome now jobs tasks (some jid) =
      process_batch persistOutcome now jobs tasks none ∧
    (process_batch persistOutcome now jobs tasks (some jid)).2 = jobs := by
  have hu : process_batch persistOutcome now jobs tasks (some jid) =
      process_batch persistOutcome now jobs tasks none := by
    unfold process_batch
    dsimp only
    rw [updateJob_not_found h, updateJob_not_found h]
  refine ⟨hu, ?_⟩
  rw [hu]
  rfl

/-- Witness for c10_unknown_job: a job id that matches no row. -/
theorem c10_unknown_job_witness :
    process_batch (fun _ => true) 0 [jobRec0]
        [⟨"falar", "Indicativo", "Presente"⟩] (some "missing") =
      process_batch (fun _ => true) 0 [jobRec0]
        [⟨"falar", "Indicativo", "Presente"⟩] none :=
  (c10_unknown_job (fun _ => true) 0 [jobRec0]
    [⟨"falar", "Indicativo", "Presente"⟩] "missing" (by decide)).1

lemma filterMap_eq_filter_map {α β : Type} (f : α → Option β) (p : α → Bool)
    (g : α → β) (hf : ∀ x, f x = if p x then some (g x) else none) :
    ∀ l : List α, l.filterMap f = (l.filter p).map g := by
  intro l
  induction l with
  | nil => rfl
  | cons a t ih =>
    rw [List.filterMap_cons, List.filter_cons, hf a]
    cases hp : p a
    · rw [if_neg (by simp [hp]), if_neg (by simp)]
      exact ih
    · rw [if_pos (by simp), if_pos (by simp)]
      rw [List.map_cons, ih]

lemma coolCollect_eq_filter (doc : CoolDoc) (idStem : String) :
    coolCollect doc idStem =
      ((List.range' 1 6).filter (fun i =>
        match doc.cell (idStem ++ toString i) with
        | some (some _) => true
        | _ => false)).map (fun i =>
          pronouns.getD (i - 1) "" ++ " " ++
            (match doc.cell (idStem ++ toString i) with
             | some (some txt) => txt
             | _ => "")) := by
  unfold coolCollect
  apply filterMap_eq_filter_map
  intro i
  cases hc : doc.cell (idStem ++ toString i) with
  | none => rfl
  | some inner =>
    cases inner with
    | none => rfl
    | some txt => rfl

/-- C9 — Backup adapter positional pairing, settled as a code bug.  The
cell loop of backup_scraper.py lines 69-99, embedded as coolCollect,
computes exactly the list the claim describes: one line per positional
cell i in 1..6 that is present and carries a verb element, in increasing
cell order, each line the canonical pronoun for position i, one space,
and that cell verb text, with absent and verb-less cells skipped, so the
list may have fewer than six lines and need not start with an eu form
(first conjunct).  But the loop is unreachable: under the claim's very
precondition — a mapped (mode, tense) — the function raises an
AttributeError at line 60 before any page is fetched or parsed (second
conjunct), so the described list is never returned; the repository's own
test test_cooljugator_parsing_logic, which asserts the parsed six-line
result for (ir, Indicativo, Presente), fails on this code. -/
theorem c9_backup_pairing :
    (∀ (doc : CoolDoc) (idStem : String),
      coolCollect doc idStem =
        ((List.range' 1 6).filter (fun i =>
          match doc.cell (idStem ++ toString i) with
          | some (some _) => true
          | _ => false)).map (fun i =>
            pronouns.getD (i - 1) "" ++ " " ++
              (match doc.cell (idStem ++ toString i) with
               | some (some txt) => txt
               | _ => ""))) ∧
    (∀ (mode tense idStem : String), lookupMapId mode tense = some idStem →
      CooljugatorScraper.get_conjugations mode tense = .error ()) :=
  ⟨fun doc idStem => coolCollect_eq_filter doc idStem,
   fun mode tense idStem h => by
     unfold CooljugatorScraper.get_conjugations
     rw [h]⟩

/-- Witness for c9_backup_pairing: on a page carrying cells present2 to
present6 only, the embedded loop yields five lines in cell order starting
with the tu form; and the mapped pair (Indicativo, Presente) makes the
adapter itself raise. -/
theorem c9_backup_pairing_witness :
    coolCollect tailCellsDoc "present" =
      ["tu vais", "ele/ela/você vai", "nós vamos", "vós ides",
       "eles/elas/vocês vão"] ∧
    CooljugatorScraper.get_conjugations "Indicativo" "Presente" = .error () :=
  ⟨(c9_backup_pairing.1 tailCellsDoc "present").trans (by decide),
   c9_backup_pairing.2 "Indicativo" "Presente" "present" rfl⟩

end VerbApp
